import Mathlib

/-!
Verification of the tumor-nanobot simulation core of antelligence-app.

Shallow embedding of backend/biofvm.py (substrate diffusion-reaction engine),
backend/tumor_environment.py (tumor cells, vessels, geometry) and
backend/nanobot_simulation.py (nanobot behavior state machine and the
per-tick orchestrator), followed by theorems settling the spec claims.

Modelling conventions:
  * Python floats are idealised as exact rationals where only field/grid
    arithmetic occurs, and as reals where the source takes square roots
    (Euclidean norms) or trigonometric functions (random headings).
  * numpy arrays are total functions from integer indices; the engine only
    ever reads indices inside the grid shape, so values outside are inert.
  * Python dicts keyed by substrate name become association lists.
  * Object references that the source mutates through aliases (the agent's
    target cell, which also lives in the geometry's cell list) are modelled
    as integer indices into the owning list, per the spec's design note on
    weak references.
-/

/-- Python int() conversion: truncation toward zero, on rationals. -/
def pyTruncQ (q : ℚ) : ℤ := if 0 ≤ q then ⌊q⌋ else ⌈q⌉

/-- Python int() conversion: truncation toward zero, on reals (floats idealised). -/
noncomputable def pyTruncR (x : ℝ) : ℤ := if 0 ≤ x then ⌊x⌋ else ⌈x⌉

/-- numpy clip for integer indices: np.clip(i, lo, hi). -/
def clipZ (i lo hi : ℤ) : ℤ := max lo (min i hi)

/-- numpy clip for real scalars: np.clip(x, lo, hi). -/
noncomputable def clipR (x lo hi : ℝ) : ℝ := max lo (min x hi)

/-- Python round() to nearest integer with ties to even (banker rounding),
as used by int(round(i)) in get_concentration_at. -/
noncomputable def pyRoundR (x : ℝ) : ℤ :=
  let n : ℤ := ⌊x⌋
  if x - n < 1/2 then n
  else if (1 : ℝ)/2 < x - n then n + 1
  else if Even n then n else n + 1

/-- A 3-D numpy float array over the voxel grid, as a total function. -/
def Grid3 : Type := ℤ → ℤ → ℤ → ℚ

/-- Pointwise update of one array cell (numpy item assignment / +=). -/
def updateGrid (g : Grid3) (p : ℤ × ℤ × ℤ) (v : ℚ) : Grid3 :=
  fun i j k => if i = p.1 ∧ j = p.2.1 ∧ k = p.2.2 then v else g i j k

/-- backend/biofvm.py SubstrateField: one diffusible substrate.
The numpy arrays carry their shape; we keep it in the record. -/
structure SubstrateField where
  name : String
  nx : ℤ
  ny : ℤ
  nz : ℤ
  concentration : Grid3
  diffusion_coefficient : ℚ
  decay_rate : ℚ
  dirichlet_boundary_value : Option ℚ
  source_sink : Grid3

/-- SubstrateField.__init__: uniform initial concentration, zero source/sink. -/
def SubstrateField.mkNew (name : String) (nx ny nz : ℤ)
    (diffusion_coefficient decay_rate initial_value : ℚ)
    (dirichlet_boundary_value : Option ℚ) : SubstrateField :=
  ⟨name, nx, ny, nz, fun _ _ _ => initial_value, diffusion_coefficient,
    decay_rate, dirichlet_boundary_value, fun _ _ _ => 0⟩

/-- SubstrateField.add_source: bounds-checked += into the source/sink grid. -/
def SubstrateField.add_source (s : SubstrateField) (p : ℤ × ℤ × ℤ) (amount : ℚ) :
    SubstrateField :=
  if 0 ≤ p.1 ∧ p.1 < s.nx ∧ 0 ≤ p.2.1 ∧ p.2.1 < s.ny ∧ 0 ≤ p.2.2 ∧ p.2.2 < s.nz then
    { s with source_sink :=
        updateGrid s.source_sink p (s.source_sink p.1 p.2.1 p.2.2 + amount) }
  else s

/-- SubstrateField.add_sink: bounds-checked -= into the source/sink grid. -/
def SubstrateField.add_sink (s : SubstrateField) (p : ℤ × ℤ × ℤ) (amount : ℚ) :
    SubstrateField :=
  if 0 ≤ p.1 ∧ p.1 < s.nx ∧ 0 ≤ p.2.1 ∧ p.2.1 < s.ny ∧ 0 ≤ p.2.2 ∧ p.2.2 < s.nz then
    { s with source_sink :=
        updateGrid s.source_sink p (s.source_sink p.1 p.2.1 p.2.2 - amount) }
  else s

/-- SubstrateField.reset_sources_sinks: source_sink.fill(0.0). -/
def SubstrateField.reset_sources_sinks (s : SubstrateField) : SubstrateField :=
  { s with source_sink := fun _ _ _ => 0 }

/-- backend/biofvm.py Microenvironment: mesh geometry, the dict of substrates
(association list keyed by name), simulation time and adaptive timestep. -/
structure Microenvironment where
  xlo : ℚ
  xhi : ℚ
  ylo : ℚ
  yhi : ℚ
  zlo : ℚ
  zhi : ℚ
  dx : ℚ
  dy : ℚ
  dz : ℚ
  dimensionality : ℕ
  nx : ℤ
  ny : ℤ
  nz : ℤ
  substrates : List (String × SubstrateField)
  time : ℚ
  dt : ℚ

/-- Microenvironment.__init__: grid dimensions from ranges and spacing;
2-D forces nz = 1 and dz = 1.0; dt starts at 0.01 min. -/
def mkMicroenvironment (xlo xhi ylo yhi zlo zhi dx dy dz : ℚ)
    (dimensionality : ℕ) : Microenvironment :=
  let nx := pyTruncQ ((xhi - xlo) / dx) + 1
  let ny := pyTruncQ ((yhi - ylo) / dy) + 1
  let nz := if dimensionality = 2 then 1 else pyTruncQ ((zhi - zlo) / dz) + 1
  let dz := if dimensionality = 2 then 1 else dz
  ⟨xlo, xhi, ylo, yhi, zlo, zhi, dx, dy, dz, dimensionality, nx, ny, nz, [], 0, 1/100⟩

/-- dict lookup self.substrates.get(name): first entry with the given key. -/
def lookupSubstrate : List (String × SubstrateField) → String → Option SubstrateField
  | [], _ => none
  | p :: rest, n => if p.1 = n then some p.2 else lookupSubstrate rest n

/-- Microenvironment.get_substrate. -/
def Microenvironment.get_substrate (env : Microenvironment) (n : String) :
    Option SubstrateField :=
  lookupSubstrate env.substrates n

/-- dict item assignment self.substrates[name] = substrate: replace the entry
with this key in place, or append a new one. -/
def dictInsertSubstrate : List (String × SubstrateField) → String → SubstrateField →
    List (String × SubstrateField)
  | [], n, s => [(n, s)]
  | p :: rest, n, s =>
    if p.1 = n then (n, s) :: rest else p :: dictInsertSubstrate rest n s

/-- In-place mutation of the dict entry with the given key (the source mutates
the SubstrateField object obtained from the dict). -/
def modifySubstrate (env : Microenvironment) (n : String)
    (f : SubstrateField → SubstrateField) : Microenvironment :=
  { env with substrates := env.substrates.map (fun p => if p.1 = n then (p.1, f p.2) else p) }

/-- min(self.dx, self.dy, self.dz if dimensionality == 3 else float(inf)). -/
def Microenvironment.minSpacing (env : Microenvironment) : ℚ :=
  if env.dimensionality = 3 then min (min env.dx env.dy) env.dz
  else min env.dx env.dy

/-- Microenvironment._update_timestep: stability rule
dt = 0.25 * min_spacing^2 / (2 * max_D * dimensionality), capped at 0.1 min;
no-op when no substrate is registered. -/
def Microenvironment.updateTimestep (env : Microenvironment) : Microenvironment :=
  match env.substrates with
  | [] => env
  | p :: rest =>
    let maxD := rest.foldl (fun m q => max m q.2.diffusion_coefficient)
      p.2.diffusion_coefficient
    let dtMax := (1/4 : ℚ) * env.minSpacing ^ 2 /
      (2 * maxD * (env.dimensionality : ℚ))
    { env with dt := min dtMax (1/10) }

/-- Microenvironment.add_substrate: converts D from cm^2/s to um^2/min
(factor 6e9), registers the field sized to the shared grid, and recomputes
the timestep. -/
def Microenvironment.add_substrate (env : Microenvironment) (n : String)
    (diffusion_coefficient decay_rate initial_value : ℚ)
    (dirichlet_boundary_value : Option ℚ) : Microenvironment :=
  let dConv := diffusion_coefficient * 6000000000
  let s := SubstrateField.mkNew n env.nx env.ny env.nz dConv decay_rate
    initial_value dirichlet_boundary_value
  Microenvironment.updateTimestep
    { env with substrates := dictInsertSubstrate env.substrates n s }

/-- The discrete Laplacian array of simulate_diffusion_decay: the 5-point
(2-D) or 7-point (3-D) stencil on interior voxels, zero elsewhere
(numpy writes only the [1:-1] slices of an array of zeros). -/
def laplacianAt (env : Microenvironment) (c : Grid3) (i j k : ℤ) : ℚ :=
  if env.dimensionality = 2 then
    if 1 ≤ i ∧ i ≤ env.nx - 2 ∧ 1 ≤ j ∧ j ≤ env.ny - 2 ∧ k = 0 then
      (c (i+1) j k - 2 * c i j k + c (i-1) j k) / env.dx ^ 2 +
      (c i (j+1) k - 2 * c i j k + c i (j-1) k) / env.dy ^ 2
    else 0
  else
    if 1 ≤ i ∧ i ≤ env.nx - 2 ∧ 1 ≤ j ∧ j ≤ env.ny - 2 ∧ 1 ≤ k ∧ k ≤ env.nz - 2 then
      (c (i+1) j k - 2 * c i j k + c (i-1) j k) / env.dx ^ 2 +
      (c i (j+1) k - 2 * c i j k + c i (j-1) k) / env.dy ^ 2 +
      (c i j (k+1) - 2 * c i j k + c i j (k-1)) / env.dz ^ 2
    else 0

/-- One boundary-face assignment C[face] = value-from-other-face or constant;
the six numpy assignments of the source are applied sequentially. -/
def setFaceXlo (env : Microenvironment) (v : Grid3 → ℤ → ℤ → ℤ → ℚ) (c : Grid3) : Grid3 :=
  fun i j k => if i = 0 then v c i j k else c i j k

def setFaceXhi (env : Microenvironment) (v : Grid3 → ℤ → ℤ → ℤ → ℚ) (c : Grid3) : Grid3 :=
  fun i j k => if i = env.nx - 1 then v c i j k else c i j k

def setFaceYlo (env : Microenvironment) (v : Grid3 → ℤ → ℤ → ℤ → ℚ) (c : Grid3) : Grid3 :=
  fun i j k => if j = 0 then v c i j k else c i j k

def setFaceYhi (env : Microenvironment) (v : Grid3 → ℤ → ℤ → ℤ → ℚ) (c : Grid3) : Grid3 :=
  fun i j k => if j = env.ny - 1 then v c i j k else c i j k

def setFaceZlo (env : Microenvironment) (v : Grid3 → ℤ → ℤ → ℤ → ℚ) (c : Grid3) : Grid3 :=
  fun i j k => if k = 0 then v c i j k else c i j k

def setFaceZhi (env : Microenvironment) (v : Grid3 → ℤ → ℤ → ℤ → ℚ) (c : Grid3) : Grid3 :=
  fun i j k => if k = env.nz - 1 then v c i j k else c i j k

/-- Dirichlet boundary application: every face clamped to the fixed value
(z faces only in 3-D). -/
def applyDirichlet (env : Microenvironment) (b : ℚ) (c : Grid3) : Grid3 :=
  let c := setFaceXlo env (fun _ _ _ _ => b) c
  let c := setFaceXhi env (fun _ _ _ _ => b) c
  let c := setFaceYlo env (fun _ _ _ _ => b) c
  let c := setFaceYhi env (fun _ _ _ _ => b) c
  if env.dimensionality = 3 then
    setFaceZhi env (fun _ _ _ _ => b) (setFaceZlo env (fun _ _ _ _ => b) c)
  else c

/-- Neumann (no-flux) boundary application: each face copies the adjacent
interior slice, in the source's assignment order. -/
def applyNeumann (env : Microenvironment) (c : Grid3) : Grid3 :=
  let c := setFaceXlo env (fun g _ j k => g 1 j k) c
  let c := setFaceXhi env (fun g _ j k => g (env.nx - 2) j k) c
  let c := setFaceYlo env (fun g i _ k => g i 1 k) c
  let c := setFaceYhi env (fun g i _ k => g i (env.ny - 2) k) c
  if env.dimensionality = 3 then
    setFaceZhi env (fun g i j _ => g i j (env.nz - 2))
      (setFaceZlo env (fun g i j _ => g i j 1) c)
  else c

/-- Microenvironment.simulate_diffusion_decay: FTCS scheme. The Laplacian is
computed from the pre-boundary concentrations, boundary conditions are then
applied in place, the forward-Euler update C + dt*(D*lap - lambda*C + S)
uses the boundary-adjusted C, and the result is clamped to be non-negative. -/
def Microenvironment.simulate_diffusion_decay (env : Microenvironment)
    (s : SubstrateField) (dtv : ℚ) : SubstrateField :=
  let c := s.concentration
  let lap : Grid3 := fun i j k => laplacianAt env c i j k
  let cb : Grid3 :=
    match s.dirichlet_boundary_value with
    | some b => applyDirichlet env b c
    | none => applyNeumann env c
  let newC : Grid3 := fun i j k =>
    max (cb i j k + dtv * (s.diffusion_coefficient * lap i j k -
      s.decay_rate * cb i j k + s.source_sink i j k)) 0
  { s with concentration := newC }

/-- Microenvironment.step: advance every substrate one timestep
(self.dt when the argument is None) and accumulate simulation time. -/
def Microenvironment.step (env : Microenvironment) (dtArg : Option ℚ) :
    Microenvironment :=
  let dtv := dtArg.getD env.dt
  let newSubs := env.substrates.map (fun p => (p.1, env.simulate_diffusion_decay p.2 dtv))
  { env with substrates := newSubs, time := env.time + dtv }

/-- Microenvironment.get_concentration_at: nearest-voxel lookup after
clipping the fractional index into range; 0.0 for an unregistered name. -/
noncomputable def Microenvironment.get_concentration_at (env : Microenvironment)
    (n : String) (pos : ℝ × ℝ × ℝ) : ℚ :=
  match env.get_substrate n with
  | none => 0
  | some s =>
    let i : ℝ := (pos.1 - (env.xlo : ℝ)) / (env.dx : ℝ)
    let j : ℝ := (pos.2.1 - (env.ylo : ℝ)) / (env.dy : ℝ)
    let k : ℝ := if env.dimensionality = 2 then 0
      else (pos.2.2 - (env.zlo : ℝ)) / (env.dz : ℝ)
    let i := clipR i 0 ((env.nx : ℝ) - 1)
    let j := clipR j 0 ((env.ny : ℝ) - 1)
    let k := clipR k 0 ((env.nz : ℝ) - 1)
    s.concentration (pyRoundR i) (pyRoundR j) (pyRoundR k)

/-- Microenvironment.get_gradient_at: central difference at the truncated,
edge-clamped voxel; the all-zero vector of the domain's dimensionality for
an unregistered name. -/
noncomputable def Microenvironment.get_gradient_at (env : Microenvironment)
    (n : String) (pos : ℝ × ℝ × ℝ) : List ℚ :=
  match env.get_substrate n with
  | none => List.replicate env.dimensionality 0
  | some s =>
    let c := s.concentration
    let i0 := pyTruncR ((pos.1 - (env.xlo : ℝ)) / (env.dx : ℝ))
    let j0 := pyTruncR ((pos.2.1 - (env.ylo : ℝ)) / (env.dy : ℝ))
    let k0 := if env.dimensionality = 2 then 0
      else pyTruncR ((pos.2.2 - (env.zlo : ℝ)) / (env.dz : ℝ))
    let i := clipZ i0 1 (env.nx - 2)
    let j := clipZ j0 1 (env.ny - 2)
    let k := if env.dimensionality = 3 then clipZ k0 1 (env.nz - 2) else 0
    let gx := (c (i+1) j k - c (i-1) j k) / (2 * env.dx)
    let gy := (c i (j+1) k - c i (j-1) k) / (2 * env.dy)
    if env.dimensionality = 2 then [gx, gy]
    else [gx, gy, (c i j (k+1) - c i j (k-1)) / (2 * env.dz)]

/-- Microenvironment.position_to_voxel: truncate then clip each axis. -/
noncomputable def Microenvironment.position_to_voxel (env : Microenvironment)
    (pos : ℝ × ℝ × ℝ) : ℤ × ℤ × ℤ :=
  let i := pyTruncR ((pos.1 - (env.xlo : ℝ)) / (env.dx : ℝ))
  let j := pyTruncR ((pos.2.1 - (env.ylo : ℝ)) / (env.dy : ℝ))
  let k := if env.dimensionality = 2 then 0
    else pyTruncR ((pos.2.2 - (env.zlo : ℝ)) / (env.dz : ℝ))
  (clipZ i 0 (env.nx - 1), clipZ j 0 (env.ny - 1), clipZ k 0 (env.nz - 1))

/-- Microenvironment.reset_all_sources_sinks. -/
def Microenvironment.reset_all_sources_sinks (env : Microenvironment) :
    Microenvironment :=
  let newSubs := env.substrates.map (fun p => (p.1, p.2.reset_sources_sinks))
  { env with substrates := newSubs }

/-- create_oxygen_substrate: D = 1e-5 cm^2/s, decay 0.1/min, Dirichlet at
the boundary value, initial value the boundary value. -/
def createOxygenSubstrate (env : Microenvironment) (boundary_value : ℚ) :
    Microenvironment :=
  env.add_substrate "oxygen" (1/100000) (1/10) boundary_value (some boundary_value)

/-- create_drug_substrate: decay 0.05/min, zero initial and boundary value. -/
def createDrugSubstrate (env : Microenvironment) (diffusion_coeff : ℚ) :
    Microenvironment :=
  env.add_substrate "drug" diffusion_coeff (1/20) 0 (some 0)

/-- create_pheromone_substrate: D = 1e-6 cm^2/s, no-flux boundaries. -/
def createPheromoneSubstrate (env : Microenvironment) (n : String)
    (decay_rate : ℚ) : Microenvironment :=
  env.add_substrate n (1/1000000) decay_rate 0 none

/-- Cell cycle phases (tumor_environment.py CellPhase). -/
inductive CellPhase
  | VIABLE
  | HYPOXIC
  | NECROTIC
  | APOPTOTIC
deriving DecidableEq

/-- tumor_environment.py TumorCell: a stationary point entity with the phase
state machine driven by local oxygen and accumulated drug dose. -/
structure TumorCell where
  cell_id : ℕ
  position : ℝ × ℝ × ℝ
  radius : ℚ
  phase : CellPhase
  oxygen_uptake_rate : ℚ
  hypoxic_threshold : ℚ
  necrotic_threshold : ℚ
  hypoxic_duration : ℚ
  necrotic_time_threshold : ℚ
  drug_sensitivity : ℚ
  accumulated_drug : ℚ
  lethal_drug_dose : ℚ
  is_alive : Bool
  time_of_death : Option String

/-- TumorCell.__init__ with the source's metabolic and drug defaults. -/
def TumorCell.mkNew (cell_id : ℕ) (position : ℝ × ℝ × ℝ)
    (radius : ℚ := 10) (initial_phase : CellPhase := CellPhase.VIABLE) : TumorCell :=
  ⟨cell_id, position, radius, initial_phase, 10, 5, 5/2, 0, 30, 1, 0, 100, true, none⟩

/-- TumorCell.update_oxygen_status(oxygen_concentration, dt): hypoxia entry
and accumulation, necrosis once the hypoxic duration exceeds the threshold,
reversion to Viable when oxygen recovers; dead cells ignore the call. -/
def TumorCell.update_oxygen_status (c : TumorCell) (oxygen_concentration dtv : ℚ) :
    TumorCell :=
  if c.is_alive = false then c
  else if oxygen_concentration < c.hypoxic_threshold then
    let c1 := { c with phase := CellPhase.HYPOXIC,
                       hypoxic_duration := c.hypoxic_duration + dtv }
    if c1.hypoxic_duration > c1.necrotic_time_threshold then
      { c1 with phase := CellPhase.NECROTIC, is_alive := false,
                time_of_death := some "necrosis" }
    else c1
  else if c.phase = CellPhase.HYPOXIC then
    { c with phase := CellPhase.VIABLE, hypoxic_duration := 0 }
  else c

/-- TumorCell.absorb_drug(drug_concentration, dt): uptake proportional to
concentration, sensitivity and dt (factor 0.1), apoptosis at the lethal
dose; dead cells ignore the call. -/
def TumorCell.absorb_drug (c : TumorCell) (drug_concentration dtv : ℚ) : TumorCell :=
  if c.is_alive = false then c
  else
    let c1 := { c with accumulated_drug :=
      c.accumulated_drug + drug_concentration * c.drug_sensitivity * dtv * (1/10) }
    if c1.accumulated_drug ≥ c1.lethal_drug_dose then
      { c1 with phase := CellPhase.APOPTOTIC, is_alive := false,
                time_of_death := some "apoptosis" }
    else c1

/-- TumorCell.get_oxygen_consumption: base rate when Viable, 30 percent when
Hypoxic, zero when dead or in a death phase. -/
def TumorCell.get_oxygen_consumption (c : TumorCell) : ℚ :=
  if c.is_alive = false then 0
  else if c.phase = CellPhase.VIABLE then c.oxygen_uptake_rate
  else if c.phase = CellPhase.HYPOXIC then c.oxygen_uptake_rate * (3/10)
  else 0

/-- Modelled from the spec: `TumorCell.accumulate_drug(amount)` is called by
`NanobotAgent._deliver_drug` (nanobot_simulation.py line 365) but no such
method exists in tumor_environment.py. Per the spec (section 4.2): increase
the accumulated dose by a direct amount (targeted-delivery pathway,
bypassing diffusion); once accumulated dose >= lethal dose, transition to
Apoptotic and mark dead (cause: apoptosis) regardless of oxygen phase; a
dead cell ignores the call. The caller binds the result as `cell_killed`,
so the method reports whether this call killed the cell. -/
def TumorCell.accumulate_drug (c : TumorCell) (amount : ℚ) : TumorCell × Bool :=
  if c.is_alive = false then (c, false)
  else
    let c1 := { c with accumulated_drug := c.accumulated_drug + amount }
    if c1.accumulated_drug ≥ c1.lethal_drug_dose then
      ({ c1 with phase := CellPhase.APOPTOTIC, is_alive := false,
                 time_of_death := some "apoptosis" }, true)
    else (c1, false)

/-- Modelled from the spec: `required_drug_threshold` is read by
`_find_nearest_hypoxic_cell` (nanobot_simulation.py line 314) but no such
attribute exists in tumor_environment.py. Per the spec, the treatment
progress used in the targeting score is accumulated drug relative to the
lethal threshold, so the attribute is the cell's lethal drug dose. -/
def TumorCell.required_drug_threshold (c : TumorCell) : ℚ :=
  c.lethal_drug_dose

/-- tumor_environment.py VesselPoint: a stationary oxygen/drug source. -/
structure VesselPoint where
  position : ℝ × ℝ × ℝ
  oxygen_supply : ℚ
  drug_supply : ℚ
  supply_radius : ℚ

/-- tumor_environment.py TumorGeometry: spatial layout of cells and vessels.
The random generation routines are not needed by any claim; the containers
and spatial queries are embedded. -/
structure TumorGeometry where
  center : ℝ × ℝ × ℝ
  tumor_radius : ℚ
  necrotic_core_radius : ℚ
  vessel_density : ℚ
  tumor_cells : List TumorCell
  vessels : List VesselPoint

/-- TumorGeometry.get_cells_in_phase. -/
def TumorGeometry.get_cells_in_phase (g : TumorGeometry) (p : CellPhase) :
    List TumorCell :=
  g.tumor_cells.filter (fun c => decide (c.phase = p))

/-- TumorGeometry.get_living_cells. -/
def TumorGeometry.get_living_cells (g : TumorGeometry) : List TumorCell :=
  g.tumor_cells.filter (fun c => c.is_alive)

/-- Euclidean distance over 3-tuples, np.sqrt(sum((p - v)**2)). -/
noncomputable def dist3D (p q : ℝ × ℝ × ℝ) : ℝ :=
  Real.sqrt ((p.1 - q.1) ^ 2 + (p.2.1 - q.2.1) ^ 2 + (p.2.2 - q.2.2) ^ 2)

/-- Euclidean distance over the x-y projections, np.linalg.norm of the
first two components. -/
noncomputable def dist2D (p q : ℝ × ℝ) : ℝ :=
  Real.sqrt ((p.1 - q.1) ^ 2 + (p.2 - q.2) ^ 2)

/-- x-y projection of a 3-D position (the source's position[:2]). -/
def posXY (p : ℝ × ℝ × ℝ) : ℝ × ℝ := (p.1, p.2.1)

/-- TumorGeometry.find_nearest_vessel: None when no vessels exist, otherwise
the vessel at the first index attaining the minimum distance (np.argmin). -/
noncomputable def TumorGeometry.find_nearest_vessel (g : TumorGeometry)
    (pos : ℝ × ℝ × ℝ) : Option VesselPoint :=
  match g.vessels with
  | [] => none
  | v :: vs => some (vs.foldl
      (fun best w => if dist3D pos w.position < dist3D pos best.position then w else best) v)

/-- Nanobot behavior states (nanobot_simulation.py NanobotState). -/
inductive NanobotState
  | SEARCHING
  | TARGETING
  | DELIVERING
  | RETURNING
  | RELOADING
deriving DecidableEq

/-- nanobot_simulation.py NanobotAgent. The target cell is a weak reference
into the geometry's cell list, modelled as an index (aliased mutation). The
target vessel is read-only after generation, so its value is stored. -/
structure NanobotAgent where
  nanobot_id : ℕ
  position : ℝ × ℝ × ℝ
  state : NanobotState
  drug_payload : ℚ
  max_payload : ℚ
  speed : ℚ
  chemotaxis_weights : List (String × ℚ)
  target_cell : Option ℕ
  target_vessel : Option VesselPoint
  is_llm_controlled : Bool
  deliveries_made : ℕ
  total_drug_delivered : ℚ
  api_calls : ℕ
  move_history : List (ℝ × ℝ)

/-- The constructor's chemotaxis weights: toward low oxygen, along trail and
recruitment pheromones, away from alarm pheromone. -/
def defaultChemotaxisWeights : List (String × ℚ) :=
  [("oxygen", -1), ("trail", 4/5), ("alarm", -(1/2)), ("recruitment", 3/5)]

/-- A discrete lifecycle event appended by the model's logging helpers.
Transaction hashes, wall-clock timestamps and the external ledger call are
environment effects outside the simulation state; the logged simulation
facts (kind, step, cell, nanobot, amount) are kept. -/
structure LogEvent where
  kind : String
  step : ℕ
  cell_id : Option ℕ
  nanobot_id : Option ℕ
  amount : ℚ

/-- nanobot_simulation.py TumorNanobotModel: the simulation orchestrator
state read and written during one tick. The LLM clients are represented by
their presence flags; their responses enter through step oracles. -/
structure TumorNanobotModel where
  microenv : Microenvironment
  geometry : TumorGeometry
  nanobots : List NanobotAgent
  with_queen : Bool
  use_llm_queen : Bool
  api_enabled : Bool
  io_client : Bool
  blockchain_enabled : Bool
  run_hash : Option String
  step_count : ℕ
  errors : List String
  blockchain_logs : List String
  blockchain_transactions : List LogEvent
  delivery_counter : ℕ
  metrics_total_deliveries : ℕ
  metrics_total_drug_delivered : ℚ
  metrics_cells_killed : ℕ
  metrics_hypoxic : ℕ
  metrics_viable : ℕ
  metrics_necrotic : ℕ
  metrics_apoptotic : ℕ
  metrics_total_api_calls : ℕ
  metrics_deliveries_by_llm : ℕ
  metrics_deliveries_by_rule : ℕ
  metrics_food_collected_by_llm : ℕ
  metrics_food_collected_by_rule : ℕ

/-- TumorNanobotModel.log_error: append to the per-run error list. -/
def TumorNanobotModel.log_error (m : TumorNanobotModel) (msg : String) :
    TumorNanobotModel :=
  { m with errors := m.errors ++ [msg] }

/-- TumorNanobotModel.log_cell_interaction: no-op unless blockchain tracking
is enabled with a run hash; otherwise append a transaction record. -/
def TumorNanobotModel.log_cell_interaction (m : TumorNanobotModel)
    (kind : String) (cell : TumorCell) (nid : Option ℕ) (amount : ℚ) :
    TumorNanobotModel :=
  if m.blockchain_enabled = false ∨ m.run_hash = none then m
  else
    { m with
      blockchain_logs := m.blockchain_logs ++ [kind],
      blockchain_transactions := m.blockchain_transactions ++
        [⟨kind, m.step_count, some cell.cell_id, nid, amount⟩] }

/-- TumorNanobotModel.log_nanobot_reload: no-op unless blockchain tracking is
enabled; with a missing vessel the source's attribute access fails inside
its try block and is logged as an error instead. -/
def TumorNanobotModel.log_nanobot_reload (m : TumorNanobotModel) (nid : ℕ)
    (vessel : Option VesselPoint) (new_payload : ℚ) : TumorNanobotModel :=
  if m.blockchain_enabled = false ∨ m.run_hash = none then m
  else
    match vessel with
    | some _ =>
      { m with
        blockchain_logs := m.blockchain_logs ++ ["nanobot_reload"],
        blockchain_transactions := m.blockchain_transactions ++
          [⟨"nanobot_reload", m.step_count, none, some nid, new_payload⟩] }
    | none => m.log_error "Failed to log nanobot reload: vessel is None"

/-- NanobotAgent._clamp_position: clip x and y to the domain ranges. With
exact reals the clip cannot fail, so the except branch that recenters the
agent on invalid float state is unreachable. -/
noncomputable def NanobotAgent.clampPosition (a : NanobotAgent)
    (env : Microenvironment) : NanobotAgent :=
  { a with position :=
      (clipR a.position.1 (env.xlo : ℝ) (env.xhi : ℝ),
       clipR a.position.2.1 (env.ylo : ℝ) (env.yhi : ℝ),
       a.position.2.2) }

/-- The fold inside _compute_chemotaxis_direction: for each substrate name
with a registered field, accumulate weight * gradient[:2]. -/
noncomputable def chemotaxisFold (env : Microenvironment) (pos : ℝ × ℝ × ℝ) :
    (ℚ × ℚ) → List (String × ℚ) → ℚ × ℚ
  | acc, [] => acc
  | acc, (n, w) :: rest =>
    match env.get_substrate n with
    | none => chemotaxisFold env pos acc rest
    | some _ =>
      let g := env.get_gradient_at n pos
      chemotaxisFold env pos (acc.1 + w * g.getD 0 0, acc.2 + w * g.getD 1 0) rest

/-- NanobotAgent._compute_chemotaxis_direction. -/
noncomputable def NanobotAgent.computeChemotaxisDirection (a : NanobotAgent)
    (env : Microenvironment) : ℚ × ℚ :=
  chemotaxisFold env a.position (0, 0) a.chemotaxis_weights

/-- NanobotAgent._compute_pheromone_direction: gradient[:2] of the trail
substrate, or zero if it is not registered. -/
noncomputable def NanobotAgent.computePheromoneDirection (a : NanobotAgent)
    (env : Microenvironment) : ℚ × ℚ :=
  match env.get_substrate "trail" with
  | none => (0, 0)
  | some _ =>
    let g := env.get_gradient_at "trail" a.position
    (g.getD 0 0, g.getD 1 0)

/-- np.linalg.norm of a rational 2-vector. -/
noncomputable def normQ2 (d : ℚ × ℚ) : ℝ :=
  Real.sqrt ((d.1 : ℝ) ^ 2 + (d.2 : ℝ) ^ 2)

/-- The targeting score of _find_nearest_hypoxic_cell:
distance + (accumulated_drug / required_drug_threshold) * 50. -/
noncomputable def targetScore (apos : ℝ × ℝ × ℝ) (c : TumorCell) : ℝ :=
  dist2D (posXY c.position) (posXY apos) +
    ((c.accumulated_drug / c.required_drug_threshold : ℚ) : ℝ) * 50

/-- The candidate pool of _find_nearest_hypoxic_cell: living Hypoxic cells,
or all living cells when no Hypoxic cell exists, with their indices in the
geometry's cell list. -/
def hypoxicPool (g : TumorGeometry) : List (ℕ × TumorCell) :=
  let living := g.tumor_cells.enum.filter (fun ic => ic.2.is_alive)
  let hypoxic := living.filter (fun ic => decide (ic.2.phase = CellPhase.HYPOXIC))
  if hypoxic.isEmpty then living else hypoxic

/-- The candidate-collection loop of _find_nearest_hypoxic_cell: keep the
pool members within the search radius, scored. -/
noncomputable def collectCandidates (apos : ℝ × ℝ × ℝ) (maxd : ℚ) :
    List (ℕ × TumorCell) → List (ℕ × ℝ)
  | [] => []
  | ic :: rest =>
    if dist2D (posXY ic.2.position) (posXY apos) ≤ (maxd : ℝ) then
      (ic.1, targetScore apos ic.2) :: collectCandidates apos maxd rest
    else collectCandidates apos maxd rest

/-- NanobotAgent._find_nearest_hypoxic_cell: None when no living cell exists
or no pool member is in range, otherwise the first candidate attaining the
minimum score (Python min keeps the earliest minimum). -/
noncomputable def findNearestHypoxicCell (g : TumorGeometry)
    (apos : ℝ × ℝ × ℝ) (maxd : ℚ) : Option ℕ :=
  let pool := hypoxicPool g
  if pool.isEmpty then none
  else
    match collectCandidates apos maxd pool with
    | [] => none
    | c :: cs => some (cs.foldl (fun b q => if q.2 < b.2 then q else b) c).1

/-- The target-lock check at the end of _search_for_target: lock the best
scored cell within 30 um when the payload exceeds 10 units. -/
noncomputable def searchLockCheck (m : TumorNanobotModel) (a : NanobotAgent) :
    NanobotAgent × TumorNanobotModel :=
  match findNearestHypoxicCell m.geometry a.position 30 with
  | some i =>
    if a.drug_payload > 10 then
      ({ a with target_cell := some i, state := NanobotState.TARGETING },
       m.log_cell_interaction "cell_targeted"
         (m.geometry.tumor_cells.getD i (TumorCell.mkNew 0 (0, 0, 0)))
         (some a.nanobot_id) 0)
    else (a, m)
  | none => (a, m)

/-- dict lookup guidance.get(nanobot_id) over the queen's guidance mapping. -/
def lookupGuidance : List (ℕ × (ℝ × ℝ)) → ℕ → Option (ℝ × ℝ)
  | [], _ => none
  | p :: rest, i => if p.1 = i then some p.2 else lookupGuidance rest i

/-- The chemotaxis-or-random-walk movement plus lock check that closes
_search_for_target: move along the normalised chemotaxis direction, or take
an unbiased random step (heading supplied by the oracle as a unit vector
(cos theta, sin theta)), clamp, then try to lock a target. -/
noncomputable def searchDefaultMove (m : TumorNanobotModel) (a : NanobotAgent)
    (randDir : ℝ × ℝ) : NanobotAgent × TumorNanobotModel :=
  let dir := a.computeChemotaxisDirection m.microenv
  let a :=
    if normQ2 dir > 0 then
      { a with position :=
          (a.position.1 + (dir.1 : ℝ) / normQ2 dir * (a.speed : ℝ),
           a.position.2.1 + (dir.2 : ℝ) / normQ2 dir * (a.speed : ℝ),
           a.position.2.2) }
    else
      { a with position :=
          (a.position.1 + (a.speed : ℝ) * randDir.1,
           a.position.2.1 + (a.speed : ℝ) * randDir.2,
           a.position.2.2) }
  let a := a.clampPosition m.microenv
  searchLockCheck m a

/-- NanobotAgent._search_for_target. The guided branch executes
position += guided_direction * speed with a (3,) array and a (2,) direction,
which numpy rejects: it raises ValueError (broadcast shape mismatch). The
LLM decision enters through an oracle: an action string on success, an
exception message on failure (the alarm-pheromone deposit then fires). -/
noncomputable def NanobotAgent.searchForTarget (a : NanobotAgent)
    (m : TumorNanobotModel) (guidance : List (ℕ × (ℝ × ℝ)))
    (llmResult : Except String String) (randDir : ℝ × ℝ) :
    Except String (NanobotAgent × TumorNanobotModel) :=
  match lookupGuidance guidance a.nanobot_id with
  | some _ =>
    Except.error "ValueError: operands could not be broadcast together with shapes (3,) (2,)"
  | none =>
    if a.is_llm_controlled ∧ m.io_client ∧ m.api_enabled then
      match llmResult with
      | Except.ok action =>
        let a := { a with api_calls := a.api_calls + 1 }
        if action = "target" then
          match findNearestHypoxicCell m.geometry a.position 50 with
          | some i =>
            Except.ok
              ({ a with target_cell := some i, state := NanobotState.TARGETING },
               m.log_cell_interaction "cell_targeted"
                 (m.geometry.tumor_cells.getD i (TumorCell.mkNew 0 (0, 0, 0)))
                 (some a.nanobot_id) 0)
          | none => Except.ok (searchDefaultMove m a randDir)
        else if action = "follow_trail" then
          let dir := a.computePheromoneDirection m.microenv
          if normQ2 dir > 0 then
            let a := { a with position :=
              (a.position.1 + (dir.1 : ℝ) / normQ2 dir * (a.speed : ℝ),
               a.position.2.1 + (dir.2 : ℝ) / normQ2 dir * (a.speed : ℝ),
               a.position.2.2) }
            Except.ok (a.clampPosition m.microenv, m)
          else Except.ok (searchDefaultMove m a randDir)
        else Except.ok (searchDefaultMove m a randDir)
      | Except.error e =>
        let m := m.log_error ("LLM call failed: " ++ e)
        let voxel := m.microenv.position_to_voxel a.position
        let m :=
          match m.microenv.get_substrate "alarm" with
          | some _ =>
            let env2 := modifySubstrate m.microenv "alarm" (fun s => s.add_source voxel 5)
            { m with microenv := env2 }
          | none => m
        Except.ok (searchDefaultMove m a randDir)
    else Except.ok (searchDefaultMove m a randDir)

/-- NanobotAgent._move_toward_target. -/
noncomputable def NanobotAgent.moveTowardTarget (a : NanobotAgent)
    (m : TumorNanobotModel) : NanobotAgent × TumorNanobotModel :=
  match a.target_cell with
  | none => ({ a with target_cell := none, state := NanobotState.SEARCHING }, m)
  | some i =>
    let c := m.geometry.tumor_cells.getD i (TumorCell.mkNew 0 (0, 0, 0))
    if c.is_alive = false then
      ({ a with target_cell := none, state := NanobotState.SEARCHING }, m)
    else
      let d := dist2D (posXY c.position) (posXY a.position)
      if d < 5 then ({ a with state := NanobotState.DELIVERING }, m)
      else
        let a := { a with position :=
          (a.position.1 + (c.position.1 - a.position.1) / d * (a.speed : ℝ),
           a.position.2.1 + (c.position.2.1 - a.position.2.1) / d * (a.speed : ℝ),
           a.position.2.2) }
        (a.clampPosition m.microenv, m)

/-- NanobotAgent._deliver_drug: release min(payload, 100) units into the
local voxel's drug source accumulator, decrement payload, apply the dose
directly to the target cell (spec-modelled accumulate_drug), deposit trail
pheromone, and transition to Returning once the cell is dead or the payload
is below 10. -/
noncomputable def NanobotAgent.deliverDrug (a : NanobotAgent)
    (m : TumorNanobotModel) : NanobotAgent × TumorNanobotModel :=
  match a.target_cell with
  | none => ({ a with target_cell := none, state := NanobotState.SEARCHING }, m)
  | some i =>
    let c := m.geometry.tumor_cells.getD i (TumorCell.mkNew 0 (0, 0, 0))
    if c.is_alive = false then
      ({ a with target_cell := none, state := NanobotState.SEARCHING }, m)
    else
      let voxel := m.microenv.position_to_voxel a.position
      let afterRelease :=
        match m.microenv.get_substrate "drug" with
        | some _ =>
          if a.drug_payload > 0 then
            let amount := min a.drug_payload 100
            let env2 := modifySubstrate m.microenv "drug" (fun s => s.add_source voxel amount)
            let m := { m with microenv := env2 }
            let a := { a with
              drug_payload := a.drug_payload - amount,
              total_drug_delivered := a.total_drug_delivered + amount }
            let m := m.log_cell_interaction "drug_delivered" c (some a.nanobot_id) amount
            let cr := c.accumulate_drug amount
            let geo2 := { m.geometry with tumor_cells := m.geometry.tumor_cells.set i cr.1 }
            let m := { m with geometry := geo2 }
            let m := if cr.2 then
                m.log_cell_interaction "cell_killed" cr.1 (some a.nanobot_id) amount
              else m
            let m :=
              match m.microenv.get_substrate "trail" with
              | some _ =>
                let env3 := modifySubstrate m.microenv "trail" (fun s => s.add_source voxel 3)
                { m with microenv := env3 }
              | none => m
            (a, m, cr.1)
          else (a, m, c)
        | none => (a, m, c)
      let a := afterRelease.1
      let m := afterRelease.2.1
      let cellNow := afterRelease.2.2
      if cellNow.is_alive = false ∨ a.drug_payload < 10 then
        ({ a with
            deliveries_made := a.deliveries_made + 1,
            target_cell := none,
            target_vessel := m.geometry.find_nearest_vessel a.position,
            state := NanobotState.RETURNING }, m)
      else (a, m)

/-- NanobotAgent._return_to_vessel: look the vessel up if unknown, fall back
to Searching when the geometry has none, otherwise approach and switch to
Reloading within 10 um. -/
noncomputable def NanobotAgent.returnToVessel (a : NanobotAgent)
    (m : TumorNanobotModel) : NanobotAgent × TumorNanobotModel :=
  let a :=
    match a.target_vessel with
    | none => { a with target_vessel := m.geometry.find_nearest_vessel a.position }
    | some _ => a
  match a.target_vessel with
  | none => ({ a with state := NanobotState.SEARCHING }, m)
  | some v =>
    let d := dist2D (posXY v.position) (posXY a.position)
    if d < 10 then ({ a with state := NanobotState.RELOADING }, m)
    else
      let a := { a with position :=
        (a.position.1 + (v.position.1 - a.position.1) / d * (a.speed : ℝ),
         a.position.2.1 + (v.position.2.1 - a.position.2.1) / d * (a.speed : ℝ),
         a.position.2.2) }
      (a.clampPosition m.microenv, m)

/-- NanobotAgent._reload_drug: add the 20 units/step reload rate capped at
the maximum payload; once 90 percent full, clear the vessel and search. -/
def NanobotAgent.reloadDrug (a : NanobotAgent) (m : TumorNanobotModel) :
    NanobotAgent × TumorNanobotModel :=
  let old_payload := a.drug_payload
  let a := { a with drug_payload := min (a.drug_payload + 20) a.max_payload }
  let m :=
    if old_payload < a.max_payload * (1/2) ∧ old_payload ≤ a.drug_payload then
      m.log_nanobot_reload a.nanobot_id a.target_vessel a.drug_payload
    else m
  if a.drug_payload ≥ a.max_payload * (9/10) then
    ({ a with target_vessel := none, state := NanobotState.SEARCHING }, m)
  else (a, m)

/-- NanobotAgent.step: record the position history, then dispatch on the
behavior state. Only the guided Searching branch can raise. -/
noncomputable def NanobotAgent.stepA (a : NanobotAgent) (m : TumorNanobotModel)
    (guidance : List (ℕ × (ℝ × ℝ))) (llmResult : Except String String)
    (randDir : ℝ × ℝ) : Except String (NanobotAgent × TumorNanobotModel) :=
  let a := { a with move_history := a.move_history ++ [posXY a.position] }
  match a.state with
  | NanobotState.RELOADING => Except.ok (a.reloadDrug m)
  | NanobotState.DELIVERING => Except.ok (a.deliverDrug m)
  | NanobotState.RETURNING => Except.ok (a.returnToVessel m)
  | NanobotState.TARGETING => Except.ok (a.moveTowardTarget m)
  | NanobotState.SEARCHING => a.searchForTarget m guidance llmResult randDir

/-- QueenNanobot._guide_with_heuristic: for every Searching agent with
payload above 20, a unit direction toward the nearest Hypoxic cell
(np.argmin keeps the first minimum; zero distance emits no guidance). -/
noncomputable def queenGuideHeuristic (m : TumorNanobotModel) :
    List (ℕ × (ℝ × ℝ)) :=
  let hypoxic := m.geometry.get_cells_in_phase CellPhase.HYPOXIC
  match hypoxic with
  | [] => []
  | c0 :: cs =>
    m.nanobots.foldl
      (fun acc nb =>
        if nb.state = NanobotState.SEARCHING ∧ nb.drug_payload > 20 then
          let nearest := cs.foldl
            (fun best c =>
              if dist2D (posXY c.position) (posXY nb.position) <
                 dist2D (posXY best.position) (posXY nb.position) then c else best) c0
          let dirx := nearest.position.1 - nb.position.1
          let diry := nearest.position.2.1 - nb.position.2.1
          let d := Real.sqrt (dirx ^ 2 + diry ^ 2)
          if 0 < d then acc ++ [(nb.nanobot_id, (dirx / d, diry / d))] else acc
        else acc) []

/-- QueenNanobot.guide: the LLM mode is a stub that falls back to the same
heuristic (source TODO), so both modes produce the heuristic guidance. -/
noncomputable def queenGuide (m : TumorNanobotModel) : List (ℕ × (ℝ × ℝ)) :=
  if m.use_llm_queen ∧ m.io_client ∧ m.api_enabled then queenGuideHeuristic m
  else queenGuideHeuristic m

/-- The parameters of TumorCell.update_oxygen_status as defined in
tumor_environment.py line 62, after self. -/
def updateOxygenStatusParams : List String := ["oxygen_concentration", "dt"]

/-- The keyword arguments passed at the call site in
TumorNanobotModel._update_tumor_cells (nanobot_simulation.py line 942)
beyond the two positional arguments. -/
def updateOxygenStatusCallKwargs : List String := ["log_callback"]

/-- CPython call binding for this call: the two positional arguments consume
both declared parameters, so every keyword argument must name one of the
remaining parameters; otherwise the call raises TypeError. -/
def updateOxygenStatusTypeError : String :=
  "TypeError: update_oxygen_status got an unexpected keyword argument log_callback"

def callUpdateOxygenStatus (c : TumorCell) (oxygen dtv : ℚ) :
    Except String TumorCell :=
  if updateOxygenStatusCallKwargs.all (fun k => (updateOxygenStatusParams.drop 2).contains k) then
    Except.ok (c.update_oxygen_status oxygen dtv)
  else Except.error updateOxygenStatusTypeError

/-- The method names defined by class TumorCell in tumor_environment.py;
update_microenv_support (called at nanobot_simulation.py line 951) is not
among them, so that attribute access raises AttributeError. -/
def tumorCellMethodNames : List String :=
  ["update_oxygen_status", "absorb_drug", "get_oxygen_consumption", "to_dict"]

def callUpdateMicroenvSupport (c : TumorCell) (vesselDistance : ℝ) :
    Except String TumorCell :=
  if tumorCellMethodNames.contains "update_microenv_support" then Except.ok c
  else Except.error "AttributeError: TumorCell object has no attribute update_microenv_support"

/-- The per-cell loop body of TumorNanobotModel._update_tumor_cells: skip
dead cells; read local oxygen and drug; update oxygen status (with the
log_callback keyword), absorb drug, update microenvironment support from
the vessel distance, and add the oxygen-consumption sink. An exception
propagates out of the tick. -/
noncomputable def updateTumorCellsGo (m : TumorNanobotModel) :
    ℕ → List TumorCell → Except String TumorNanobotModel
  | _, [] => Except.ok m
  | i, c :: rest =>
    if c.is_alive = false then updateTumorCellsGo m (i + 1) rest
    else do
      let oxygen := m.microenv.get_concentration_at "oxygen" c.position
      let drug := m.microenv.get_concentration_at "drug" c.position
      let c1 ← callUpdateOxygenStatus c oxygen m.microenv.dt
      let c2 := c1.absorb_drug drug m.microenv.dt
      let c3 ←
        match m.geometry.find_nearest_vessel c2.position with
        | some v => callUpdateMicroenvSupport c2 (dist2D (posXY c2.position) (posXY v.position))
        | none => Except.ok c2
      let voxel := m.microenv.position_to_voxel c3.position
      let env2 :=
        match m.microenv.get_substrate "oxygen" with
        | some _ => modifySubstrate m.microenv "oxygen"
            (fun s => s.add_sink voxel (c3.get_oxygen_consumption * m.microenv.dt))
        | none => m.microenv
      let geo2 := { m.geometry with tumor_cells := m.geometry.tumor_cells.set i c3 }
      updateTumorCellsGo { m with microenv := env2, geometry := geo2 } (i + 1) rest

/-- TumorNanobotModel._update_tumor_cells. -/
noncomputable def TumorNanobotModel.updateTumorCells (m : TumorNanobotModel) :
    Except String TumorNanobotModel :=
  updateTumorCellsGo m 0 m.geometry.tumor_cells

/-- TumorNanobotModel._apply_vessel_sources: each vessel adds
oxygen_supply * 0.5 at its voxel when the oxygen field exists. -/
noncomputable def TumorNanobotModel.applyVesselSources (m : TumorNanobotModel) :
    TumorNanobotModel :=
  m.geometry.vessels.foldl
    (fun acc v =>
      let voxel := acc.microenv.position_to_voxel v.position
      match acc.microenv.get_substrate "oxygen" with
      | some _ =>
        let env2 := modifySubstrate acc.microenv "oxygen"
          (fun s => s.add_source voxel (v.oxygen_supply * (1/2)))
        { acc with microenv := env2 }
      | none => acc) m

/-- The nanobot loop of TumorNanobotModel.step: each agent acts in creation
order; an LLM-controlled agent's api_calls are harvested into the metrics
and reset. The oracles supply each agent's LLM reply and random heading. -/
noncomputable def stepNanobotsGo (guidance : List (ℕ × (ℝ × ℝ)))
    (llmOracle : ℕ → Except String String) (randOracle : ℕ → ℝ × ℝ) :
    TumorNanobotModel → List NanobotAgent →
    Except String (List NanobotAgent × TumorNanobotModel)
  | m, [] => Except.ok ([], m)
  | m, a :: rest => do
    let r ← a.stepA m guidance (llmOracle a.nanobot_id) (randOracle a.nanobot_id)
    let a1 := r.1
    let m1 := r.2
    let harvested :=
      if a1.is_llm_controlled then
        ({ m1 with metrics_total_api_calls := m1.metrics_total_api_calls + a1.api_calls },
         { a1 with api_calls := 0 })
      else (m1, a1)
    let rec2 ← stepNanobotsGo guidance llmOracle randOracle harvested.1 rest
    Except.ok (harvested.2 :: rec2.1, rec2.2)

/-- TumorNanobotModel._update_metrics: recompute cell-phase counts,
delivery totals and the blockchain delivery sampler. -/
def TumorNanobotModel.updateMetricsPhase (m : TumorNanobotModel) :
    TumorNanobotModel :=
  let hypoxic := (m.geometry.get_cells_in_phase CellPhase.HYPOXIC).length
  let viable := (m.geometry.get_cells_in_phase CellPhase.VIABLE).length
  let necrotic := (m.geometry.get_cells_in_phase CellPhase.NECROTIC).length
  let apoptotic := (m.geometry.get_cells_in_phase CellPhase.APOPTOTIC).length
  let prev := m.metrics_total_deliveries
  let totalDel := (m.nanobots.map (fun n => n.deliveries_made)).sum
  let totalDrug := (m.nanobots.map (fun n => n.total_drug_delivered)).sum
  let byLLM := ((m.nanobots.filter (fun n => n.is_llm_controlled)).map
    (fun n => n.deliveries_made)).sum
  let byRule := ((m.nanobots.filter (fun n => !n.is_llm_controlled)).map
    (fun n => n.deliveries_made)).sum
  let m := { m with
    metrics_hypoxic := hypoxic, metrics_viable := viable,
    metrics_necrotic := necrotic, metrics_apoptotic := apoptotic,
    metrics_cells_killed := apoptotic,
    metrics_total_deliveries := totalDel,
    metrics_total_drug_delivered := totalDrug,
    metrics_deliveries_by_llm := byLLM, metrics_deliveries_by_rule := byRule,
    metrics_food_collected_by_llm := byLLM, metrics_food_collected_by_rule := byRule }
  if m.blockchain_enabled && m.run_hash.isSome then
    let newDel := totalDel - prev
    if newDel > 0 then
      let dc := m.delivery_counter + newDel
      if dc ≥ 5 then
        let m := { m with delivery_counter := 0 }
        match m.nanobots.find? (fun n =>
            decide (n.state = NanobotState.DELIVERING) || decide (n.deliveries_made > 0)) with
        | some nb =>
          { m with
            blockchain_logs := m.blockchain_logs ++ ["drug_delivery"],
            blockchain_transactions := m.blockchain_transactions ++
              [⟨"drug_delivery", m.step_count, none, some nb.nanobot_id,
                nb.total_drug_delivered⟩] }
        | none => m
      else { m with delivery_counter := dc }
    else m
  else m

/-- TumorNanobotModel.step: one simulation tick in the source's order —
increment the step counter, reset every substrate's source/sink
accumulator, update tumor cells, apply vessel sources, compute queen
guidance every 10th step, step every nanobot, advance diffusion, and
recompute metrics. An exception in any phase aborts the tick. -/
noncomputable def TumorNanobotModel.stepM (m : TumorNanobotModel)
    (llmOracle : ℕ → Except String String) (randOracle : ℕ → ℝ × ℝ) :
    Except String TumorNanobotModel := do
  let m := { m with step_count := m.step_count + 1 }
  let m := { m with microenv := m.microenv.reset_all_sources_sinks }
  let m ← m.updateTumorCells
  let m := m.applyVesselSources
  let guidance := if m.with_queen ∧ m.step_count % 10 = 0 then queenGuide m else []
  let r ← stepNanobotsGo guidance llmOracle randOracle m m.nanobots
  let m := { r.2 with nanobots := r.1 }
  let m := { m with microenv := m.microenv.step none }
  Except.ok m.updateMetricsPhase

/-! ## Claim theorems -/

/-- C4: Non-negativity invariant — for every registered substrate field, for
every tick, and for any pre-state (any concentrations, any source/sink
accumulator values, either boundary mode), every voxel of the field's
concentration grid is >= 0 after step() returns, because the forward-Euler
update is followed by a clamp of the concentration to be non-negative. -/
theorem step_concentration_nonneg (env : Microenvironment) (dtArg : Option ℚ)
    (p : String × SubstrateField) (hp : p ∈ (env.step dtArg).substrates)
    (i j k : ℤ) : 0 ≤ p.2.concentration i j k := by
  simp only [Microenvironment.step, List.mem_map] at hp
  rcases hp with ⟨q, _, hq⟩
  subst hq
  simp only [Microenvironment.simulate_diffusion_decay]
  exact le_max_right _ _

/-- A concrete two-substrate microenvironment used by witnesses. -/
def c4Env : Microenvironment :=
  { xlo := 0, xhi := 40, ylo := 0, yhi := 40, zlo := 0, zhi := 40,
    dx := 20, dy := 20, dz := 1, dimensionality := 2, nx := 3, ny := 3, nz := 1,
    substrates := [("oxygen", SubstrateField.mkNew "oxygen" 3 3 1 60000 (1/10) 38 (some 38))],
    time := 0, dt := 1/2400 }

def c4DefaultPair : String × SubstrateField :=
  ("", SubstrateField.mkNew "" 0 0 0 0 0 0 none)

theorem step_concentration_nonneg_witness :
    0 ≤ (((c4Env.step none).substrates.getD 0 c4DefaultPair).2).concentration 0 0 0 :=
  step_concentration_nonneg c4Env none ((c4Env.step none).substrates.getD 0 c4DefaultPair)
    (by simp [c4Env, Microenvironment.step, c4DefaultPair]) 0 0 0

/-- C10: Implicit — unregistered-substrate queries return neutral defaults:
for every position and every substrate name with no registered field,
get_concentration_at returns exactly 0.0 and get_gradient_at returns the
all-zero vector of the domain's dimensionality; neither raises, and the
chemotaxis fold skips the missing substrate, contributing nothing to the
movement direction. -/
theorem missing_substrate_neutral (env : Microenvironment) (n : String)
    (h : env.get_substrate n = none) :
    (∀ pos, env.get_concentration_at n pos = 0) ∧
    (∀ pos, env.get_gradient_at n pos = List.replicate env.dimensionality 0) ∧
    (∀ pos acc w rest, chemotaxisFold env pos acc ((n, w) :: rest) =
      chemotaxisFold env pos acc rest) := by
  refine ⟨?_, ?_, ?_⟩
  · intro pos
    simp only [Microenvironment.get_concentration_at, h]
  · intro pos
    simp only [Microenvironment.get_gradient_at, h]
  · intro pos acc w rest
    simp only [chemotaxisFold, h]

def c10Env : Microenvironment := mkMicroenvironment 0 100 0 100 0 100 10 10 10 2

theorem missing_substrate_neutral_witness :
    c10Env.get_concentration_at "oxygen" (0, 0, 0) = 0 ∧
    c10Env.get_gradient_at "oxygen" (0, 0, 0) = List.replicate c10Env.dimensionality 0 ∧
    chemotaxisFold c10Env (0, 0, 0) (0, 0) [("oxygen", -1)] =
      chemotaxisFold c10Env (0, 0, 0) (0, 0) [] :=
  ⟨(missing_substrate_neutral c10Env "oxygen" rfl).1 _,
   (missing_substrate_neutral c10Env "oxygen" rfl).2.1 _,
   (missing_substrate_neutral c10Env "oxygen" rfl).2.2 _ _ _ _⟩

/-- C8: No-vessel fallback — for a geometry with zero vessel points,
find_nearest_vessel returns the none sentinel for every query position
(both functions are total, so nothing is raised), and an agent executing a
Returning-state step with no known target vessel transitions to the
Searching state. -/
theorem no_vessel_fallback (m : TumorNanobotModel)
    (h : m.geometry.vessels = []) :
    (∀ pos, m.geometry.find_nearest_vessel pos = none) ∧
    (∀ a : NanobotAgent, a.target_vessel = none →
      ((a.returnToVessel m).1).state = NanobotState.SEARCHING) := by
  constructor
  · intro pos
    simp only [TumorGeometry.find_nearest_vessel, h]
  · intro a ha
    simp only [NanobotAgent.returnToVessel, ha, TumorGeometry.find_nearest_vessel, h]

def c8Geometry : TumorGeometry :=
  { center := (0, 0, 0), tumor_radius := 200, necrotic_core_radius := 50,
    vessel_density := 1/100, tumor_cells := [], vessels := [] }

def c8Model : TumorNanobotModel :=
  { microenv := c4Env, geometry := c8Geometry, nanobots := [],
    with_queen := false, use_llm_queen := false, api_enabled := false,
    io_client := false, blockchain_enabled := false, run_hash := none,
    step_count := 0, errors := [], blockchain_logs := [],
    blockchain_transactions := [], delivery_counter := 0,
    metrics_total_deliveries := 0, metrics_total_drug_delivered := 0,
    metrics_cells_killed := 0, metrics_hypoxic := 0, metrics_viable := 0,
    metrics_necrotic := 0, metrics_apoptotic := 0, metrics_total_api_calls := 0,
    metrics_deliveries_by_llm := 0, metrics_deliveries_by_rule := 0,
    metrics_food_collected_by_llm := 0, metrics_food_collected_by_rule := 0 }

def c8Agent : NanobotAgent :=
  { nanobot_id := 0, position := (10, 10, 0), state := NanobotState.RETURNING,
    drug_payload := 50, max_payload := 100, speed := 10,
    chemotaxis_weights := defaultChemotaxisWeights, target_cell := none,
    target_vessel := none, is_llm_controlled := false, deliveries_made := 0,
    total_drug_delivered := 0, api_calls := 0, move_history := [] }

theorem no_vessel_fallback_witness :
    c8Model.geometry.find_nearest_vessel (0, 0, 0) = none ∧
    ((c8Agent.returnToVessel c8Model).1).state = NanobotState.SEARCHING :=
  ⟨(no_vessel_fallback c8Model rfl).1 _,
   (no_vessel_fallback c8Model rfl).2 c8Agent rfl⟩

/-- Every list element's value is bounded by the running foldl maximum. -/
theorem le_foldl_max {α : Type} (f : α → ℚ) :
    ∀ (l : List α) (a : ℚ),
      a ≤ l.foldl (fun acc x => max acc (f x)) a ∧
      ∀ x ∈ l, f x ≤ l.foldl (fun acc x => max acc (f x)) a := by
  intro l
  induction l with
  | nil => intro a; exact ⟨le_refl a, by intro x hx; cases hx⟩
  | cons y ys ih =>
    intro a
    refine ⟨le_trans (le_max_left a (f y)) (ih (max a (f y))).1, ?_⟩
    intro x hx
    rcases List.mem_cons.mp hx with h | h
    · subst h
      exact le_trans (le_max_right a (f x)) (ih (max a (f x))).1
    · exact (ih (max a (f y))).2 x h

/-- updateTimestep changes only the timestep. -/
theorem updateTimestep_substrates (env : Microenvironment) :
    env.updateTimestep.substrates = env.substrates := by
  cases h : env.substrates with
  | nil => simp [Microenvironment.updateTimestep, h]
  | cons q rest => simp [Microenvironment.updateTimestep, h]

/-- The timestep computed by updateTimestep on a nonempty substrate dict. -/
theorem updateTimestep_dt_cons (env : Microenvironment)
    (q : String × SubstrateField) (rest : List (String × SubstrateField))
    (h : env.substrates = q :: rest) :
    env.updateTimestep.dt =
      min ((1/4 : ℚ) * env.minSpacing ^ 2 /
        (2 * rest.foldl (fun m x => max m x.2.diffusion_coefficient)
          q.2.diffusion_coefficient * (env.dimensionality : ℚ))) (1/10) := by
  simp [Microenvironment.updateTimestep, h]

/-- After updateTimestep on a nonempty substrate list with positive
diffusion coefficients, dt obeys the per-field stability bound. -/
theorem updateTimestep_stable (env : Microenvironment)
    (hdim : 0 < env.dimensionality)
    (hpos : ∀ p ∈ env.substrates, 0 < p.2.diffusion_coefficient) :
    ∀ p ∈ env.substrates,
      env.updateTimestep.dt ≤ (1/4 : ℚ) * env.minSpacing ^ 2 /
        (2 * p.2.diffusion_coefficient * (env.dimensionality : ℚ)) := by
  intro p hp
  cases h : env.substrates with
  | nil => rw [h] at hp; cases hp
  | cons q rest =>
    rw [updateTimestep_dt_cons env q rest h]
    rw [h] at hp
    have hfold := le_foldl_max (fun (x : String × SubstrateField) =>
      x.2.diffusion_coefficient) rest q.2.diffusion_coefficient
    set maxD := rest.foldl (fun m x => max m x.2.diffusion_coefficient)
      q.2.diffusion_coefficient with hmax
    have hQ : q.2.diffusion_coefficient ≤ maxD := hfold.1
    have hPD : p.2.diffusion_coefficient ≤ maxD := by
      rcases List.mem_cons.mp hp with hc | hc
      · subst hc; exact hQ
      · exact hfold.2 p hc
    have hppos : 0 < p.2.diffusion_coefficient := hpos p (h ▸ hp)
    have hqpos : 0 < q.2.diffusion_coefficient := by
      apply hpos q; rw [h]; exact List.mem_cons_self q rest
    have hnum : (0 : ℚ) ≤ (1/4 : ℚ) * env.minSpacing ^ 2 := by positivity
    have hdimQ : (0 : ℚ) < (env.dimensionality : ℚ) := by exact_mod_cast hdim
    have hden : (0 : ℚ) < 2 * p.2.diffusion_coefficient * (env.dimensionality : ℚ) := by
      positivity
    have hdenle : 2 * p.2.diffusion_coefficient * (env.dimensionality : ℚ) ≤
        2 * maxD * (env.dimensionality : ℚ) := by
      apply mul_le_mul_of_nonneg_right _ (le_of_lt hdimQ)
      linarith
    calc min ((1/4 : ℚ) * env.minSpacing ^ 2 / (2 * maxD * (env.dimensionality : ℚ)))
          (1/10)
        ≤ (1/4 : ℚ) * env.minSpacing ^ 2 / (2 * maxD * (env.dimensionality : ℚ)) :=
          min_le_left _ _
      _ ≤ (1/4 : ℚ) * env.minSpacing ^ 2 /
            (2 * p.2.diffusion_coefficient * (env.dimensionality : ℚ)) :=
          div_le_div_of_nonneg_left hnum hden hdenle

/-- Insertion into the substrate dict never yields an empty dict. -/
theorem dictInsertSubstrate_ne_nil (l : List (String × SubstrateField))
    (n : String) (s : SubstrateField) : dictInsertSubstrate l n s ≠ [] := by
  cases l with
  | nil => simp [dictInsertSubstrate]
  | cons p rest =>
    by_cases h : p.1 = n <;> simp [dictInsertSubstrate, h]

/-- C3: Timestep stability bound — after every call to
add_field/add_substrate, the stored timestep satisfies
dt <= 0.25 * min(spacing)^2 / (2 * D * dimensionality) for every currently
registered field with diffusion coefficient D in the engine's internal
units, because dt is recomputed from the fastest-diffusing field with
safety factor 0.25 and additionally capped at 0.1 for temporal resolution.
min(spacing) is the engine's minimum over the axes in use (dz joins only in
3-D, exactly as _update_timestep computes it). -/
theorem add_substrate_dt_stable (env : Microenvironment) (n : String)
    (dcoeff dec init : ℚ) (bd : Option ℚ)
    (hdim : 0 < env.dimensionality)
    (hpos : ∀ p ∈ (env.add_substrate n dcoeff dec init bd).substrates,
      0 < p.2.diffusion_coefficient) :
    ∀ p ∈ (env.add_substrate n dcoeff dec init bd).substrates,
      (env.add_substrate n dcoeff dec init bd).dt ≤
        (1/4 : ℚ) * env.minSpacing ^ 2 /
          (2 * p.2.diffusion_coefficient * (env.dimensionality : ℚ)) := by
  intro p hp
  unfold Microenvironment.add_substrate at hp ⊢
  rw [updateTimestep_substrates] at hp
  set s0 := SubstrateField.mkNew n env.nx env.ny env.nz (dcoeff * 6000000000) dec init bd with hs0
  have key := updateTimestep_stable
    { env with substrates := dictInsertSubstrate env.substrates n s0 }
    hdim
    (by simpa [Microenvironment.add_substrate, updateTimestep_substrates, hs0] using hpos)
    p hp
  simpa [Microenvironment.minSpacing] using key

def c3Env : Microenvironment :=
  (mkMicroenvironment 0 400 0 400 0 400 20 20 20 2).add_substrate
    "oxygen" (1/100000) (1/10) 38 (some 38)

def c3Base : Microenvironment := mkMicroenvironment 0 400 0 400 0 400 20 20 20 2

theorem add_substrate_dt_stable_witness :
    c3Env.dt ≤ (1/4 : ℚ) * c3Base.minSpacing ^ 2 /
      (2 * ((c3Env.substrates.getD 0 c4DefaultPair).2).diffusion_coefficient *
        (c3Base.dimensionality : ℚ)) :=
  add_substrate_dt_stable c3Base "oxygen" (1/100000) (1/10) 38 (some 38)
    (by decide)
    (by
      intro p hp
      simp only [c3Base, Microenvironment.add_substrate, updateTimestep_substrates,
        mkMicroenvironment, dictInsertSubstrate, List.mem_singleton] at hp
      subst hp
      norm_num [SubstrateField.mkNew])
    (c3Env.substrates.getD 0 c4DefaultPair)
    (by
      simp only [c3Env, c3Base, Microenvironment.add_substrate,
        updateTimestep_substrates, mkMicroenvironment, dictInsertSubstrate]
      simp)

/-- One update applied to a tumor cell by the orchestrator: an oxygen-status
update or a drug absorption, with the local concentration and dt. -/
inductive CellEvent
  | oxygen (concentration dtv : ℚ)
  | drug (concentration dtv : ℚ)

/-- Dispatch one cell event to the corresponding TumorCell method. -/
def TumorCell.applyEvent (c : TumorCell) : CellEvent → TumorCell
  | CellEvent.oxygen o dtv => c.update_oxygen_status o dtv
  | CellEvent.drug d dtv => c.absorb_drug d dtv

/-- The sequence of cell states along a sequence of events (initial state
included). -/
def traceStates (c : TumorCell) : List CellEvent → List TumorCell
  | [] => [c]
  | e :: es => c :: traceStates (c.applyEvent e) es

/-- The final cell state after a sequence of events. -/
def runTrace (c : TumorCell) (es : List CellEvent) : TumorCell :=
  es.foldl TumorCell.applyEvent c

/-- Number of adjacent true-to-false transitions of is_alive along a state
sequence. -/
def countDeathFlips : List TumorCell → ℕ
  | c1 :: c2 :: rest =>
    (if c1.is_alive = true ∧ c2.is_alive = false then 1 else 0) +
      countDeathFlips (c2 :: rest)
  | _ => 0

/-- A cell in a death phase is marked dead. Cells created by the geometry
generator start Viable or Hypoxic and alive, hence well-formed. -/
def CellWellFormed (c : TumorCell) : Prop :=
  (c.phase = CellPhase.NECROTIC ∨ c.phase = CellPhase.APOPTOTIC) →
    c.is_alive = false

/-- A dead cell ignores both update methods entirely. -/
theorem applyEvent_dead (c : TumorCell) (e : CellEvent)
    (hc : c.is_alive = false) : c.applyEvent e = c := by
  cases e with
  | oxygen o dtv => simp [TumorCell.applyEvent, TumorCell.update_oxygen_status, hc]
  | drug d dtv => simp [TumorCell.applyEvent, TumorCell.absorb_drug, hc]

/-- Well-formedness is preserved by every cell event. -/
theorem applyEvent_wf (c : TumorCell) (e : CellEvent)
    (hwf : CellWellFormed c) : CellWellFormed (c.applyEvent e) := by
  cases e with
  | oxygen o dtv =>
    simp only [TumorCell.applyEvent, TumorCell.update_oxygen_status]
    by_cases ha : c.is_alive = false
    · simpa [ha] using hwf
    · simp only [ha, if_false]
      by_cases ho : o < c.hypoxic_threshold
      · simp only [ho, if_true]
        by_cases hd : c.hypoxic_duration + dtv > c.necrotic_time_threshold
        · simp [hd, CellWellFormed]
        · simp [hd, CellWellFormed]
      · simp only [ho, if_false]
        by_cases hp : c.phase = CellPhase.HYPOXIC
        · simp [hp, CellWellFormed]
        · simpa [hp] using hwf
  | drug d dtv =>
    simp only [TumorCell.applyEvent, TumorCell.absorb_drug]
    split
    · exact hwf
    next ha =>
      split
      · simp [CellWellFormed]
      · intro hph
        rcases hph with hph | hph
        · exact absurd (hwf (Or.inl hph)) ha
        · exact absurd (hwf (Or.inr hph)) ha

/-- A transition into the Necrotic phase happens only when the hypoxic
duration (including the current increment) exceeds the necrosis-time
threshold — or the cell was already Necrotic. -/
theorem applyEvent_necro_entry (c : TumorCell) (e : CellEvent)
    (h : (c.applyEvent e).phase = CellPhase.NECROTIC) :
    c.phase = CellPhase.NECROTIC ∨
      (c.applyEvent e).hypoxic_duration > (c.applyEvent e).necrotic_time_threshold := by
  cases e with
  | oxygen o dtv =>
    simp only [TumorCell.applyEvent, TumorCell.update_oxygen_status] at h ⊢
    by_cases ha : c.is_alive = false
    · simp [ha] at h; exact Or.inl h
    · simp only [ha, if_false] at h ⊢
      by_cases ho : o < c.hypoxic_threshold
      · simp only [ho, if_true] at h ⊢
        by_cases hd : c.hypoxic_duration + dtv > c.necrotic_time_threshold
        · simp [hd]
        · simp [hd] at h
      · simp only [ho, if_false] at h ⊢
        by_cases hp : c.phase = CellPhase.HYPOXIC
        · simp [hp] at h
        · simp [hp] at h ⊢; exact Or.inl h
  | drug d dtv =>
    simp only [TumorCell.applyEvent, TumorCell.absorb_drug] at h ⊢
    split at h
    · exact Or.inl h
    · split at h
      · simp at h
      · exact Or.inl h

/-- The state trace always starts with the initial cell. -/
theorem traceStates_shape (c : TumorCell) (es : List CellEvent) :
    ∃ t, traceStates c es = c :: t := by
  cases es with
  | nil => exact ⟨[], rfl⟩
  | cons e es => exact ⟨_, rfl⟩

theorem countDeathFlips_cons (c1 c2 : TumorCell) (t : List TumorCell) :
    countDeathFlips (c1 :: c2 :: t) =
      (if c1.is_alive = true ∧ c2.is_alive = false then 1 else 0) +
        countDeathFlips (c2 :: t) := rfl

/-- A trace starting from a dead cell is frozen: no further flip, no change. -/
theorem trace_dead (c : TumorCell) (es : List CellEvent)
    (h : c.is_alive = false) :
    countDeathFlips (traceStates c es) = 0 ∧ runTrace c es = c := by
  induction es with
  | nil => exact ⟨rfl, rfl⟩
  | cons e es ih =>
    have hfrozen : c.applyEvent e = c := applyEvent_dead c e h
    rcases traceStates_shape c es with ⟨t, ht⟩
    constructor
    · show countDeathFlips (c :: traceStates (c.applyEvent e) es) = 0
      rw [hfrozen, ht, countDeathFlips_cons]
      have : ¬(c.is_alive = true ∧ c.is_alive = false) := by simp [h]
      rw [if_neg this, ← ht]
      simpa using ih.1
    · show runTrace (c.applyEvent e) es = c
      rw [hfrozen]
      exact ih.2

/-- Starting alive, the number of alive-to-dead flips along the trace is 0
while the final state is alive and exactly 1 once it is dead. -/
theorem trace_flip_count (c : TumorCell) (es : List CellEvent)
    (h : c.is_alive = true) :
    countDeathFlips (traceStates c es) =
      if (runTrace c es).is_alive = true then 0 else 1 := by
  induction es generalizing c with
  | nil => simp [traceStates, runTrace, countDeathFlips, h]
  | cons e es ih =>
    rcases traceStates_shape (c.applyEvent e) es with ⟨t, ht⟩
    show countDeathFlips (c :: traceStates (c.applyEvent e) es) =
      if (runTrace (c.applyEvent e) es).is_alive = true then 0 else 1
    rw [ht, countDeathFlips_cons, ← ht]
    by_cases ha : (c.applyEvent e).is_alive = true
    · have : ¬(c.is_alive = true ∧ (c.applyEvent e).is_alive = false) := by
        simp [ha]
      rw [if_neg this, ih _ ha]
      simp
    · have hdead : (c.applyEvent e).is_alive = false := by
        simpa using ha
      have hfr := trace_dead (c.applyEvent e) es hdead
      rw [if_pos ⟨h, hdead⟩, hfr.1, hfr.2]
      simp [hdead]

/-- The adjacent-step relation actually realised along a trace: the earlier
state is well-formed and the later state is one update method applied. -/
def CellStepRel (c1 c2 : TumorCell) : Prop :=
  CellWellFormed c1 ∧ ∃ e, c2 = c1.applyEvent e

theorem trace_chain (c : TumorCell) (es : List CellEvent)
    (hwf : CellWellFormed c) :
    List.Chain' CellStepRel (traceStates c es) := by
  induction es generalizing c with
  | nil => simp [traceStates]
  | cons e es ih =>
    rcases traceStates_shape (c.applyEvent e) es with ⟨t, ht⟩
    show List.Chain' CellStepRel (c :: traceStates (c.applyEvent e) es)
    rw [ht]
    rw [List.chain'_cons]
    constructor
    · exact ⟨hwf, e, rfl⟩
    · rw [← ht]
      exact ih _ (applyEvent_wf c e hwf)

/-- C6: Cell phase monotonicity and terminal death — for every tumor cell as
created by the geometry generator (alive, starting Viable or Hypoxic) and
every sequence of update_oxygen_status and absorb_drug calls: adjacent
states never exhibit Necrotic to anything but Necrotic (in particular never
Necrotic to Viable), never Apoptotic to any other state, and never a
transition into Necrotic without the hypoxic-duration accumulator exceeding
the necrosis-time threshold; moreover a dead state is frozen (accumulated
drug never changes and the oxygen-consumption value is zero), and is_alive
flips from true to false exactly once when the cell dies and never
otherwise. -/
theorem cell_phase_monotone_terminal (c0 : TumorCell) (es : List CellEvent)
    (halive : c0.is_alive = true)
    (hphase : c0.phase = CellPhase.VIABLE ∨ c0.phase = CellPhase.HYPOXIC) :
    List.Chain' (fun c1 c2 =>
      (c1.phase = CellPhase.NECROTIC → c2.phase = CellPhase.NECROTIC) ∧
      (c1.phase = CellPhase.APOPTOTIC → c2 = c1) ∧
      (c2.phase = CellPhase.NECROTIC → c1.phase = CellPhase.NECROTIC ∨
        c2.hypoxic_duration > c2.necrotic_time_threshold) ∧
      (c1.is_alive = false → c2 = c1 ∧ c1.get_oxygen_consumption = 0))
      (traceStates c0 es) ∧
    countDeathFlips (traceStates c0 es) =
      (if (runTrace c0 es).is_alive = true then 0 else 1) := by
  have hwf0 : CellWellFormed c0 := by
    intro hph
    rcases hphase with h | h <;> rcases hph with h2 | h2 <;>
      rw [h] at h2 <;> exact absurd h2 (by decide)
  constructor
  · refine (trace_chain c0 es hwf0).imp ?_
    intro c1 c2 hr
    rcases hr with ⟨hwf1, e, he⟩
    have hdead_frozen : c1.is_alive = false → c2 = c1 := by
      intro hd
      rw [he, applyEvent_dead c1 e hd]
    refine ⟨?_, ?_, ?_, ?_⟩
    · intro hn
      have hd := hwf1 (Or.inl hn)
      rw [hdead_frozen hd, hn]
    · intro hapo
      exact hdead_frozen (hwf1 (Or.inr hapo))
    · intro hn2
      exact he ▸ applyEvent_necro_entry c1 e (he ▸ hn2)
    · intro hd
      refine ⟨hdead_frozen hd, ?_⟩
      simp [TumorCell.get_oxygen_consumption, hd]
  · exact trace_flip_count c0 es halive

def c6Cell : TumorCell := TumorCell.mkNew 7 (0, 0, 0)

def c6Events : List CellEvent :=
  [CellEvent.oxygen 1 10, CellEvent.drug 2000 1, CellEvent.oxygen 40 1]

theorem cell_phase_monotone_terminal_witness :
    List.Chain' (fun c1 c2 =>
      (c1.phase = CellPhase.NECROTIC → c2.phase = CellPhase.NECROTIC) ∧
      (c1.phase = CellPhase.APOPTOTIC → c2 = c1) ∧
      (c2.phase = CellPhase.NECROTIC → c1.phase = CellPhase.NECROTIC ∨
        c2.hypoxic_duration > c2.necrotic_time_threshold) ∧
      (c1.is_alive = false → c2 = c1 ∧ c1.get_oxygen_consumption = 0))
      (traceStates c6Cell c6Events) ∧
    countDeathFlips (traceStates c6Cell c6Events) =
      (if (runTrace c6Cell c6Events).is_alive = true then 0 else 1) :=
  cell_phase_monotone_terminal c6Cell c6Events rfl (Or.inl rfl)

/-! ## Payload bookkeeping of the agent state machine (C7) -/

theorem searchLockCheck_payload (m : TumorNanobotModel) (a : NanobotAgent) :
    ((searchLockCheck m a).1).drug_payload = a.drug_payload ∧
    ((searchLockCheck m a).1).max_payload = a.max_payload := by
  unfold searchLockCheck
  cases findNearestHypoxicCell m.geometry a.position 30 with
  | none => exact ⟨rfl, rfl⟩
  | some i => by_cases h : a.drug_payload > 10 <;> simp [h]

theorem searchDefaultMove_payload (m : TumorNanobotModel) (a : NanobotAgent)
    (rd : ℝ × ℝ) :
    ((searchDefaultMove m a rd).1).drug_payload = a.drug_payload ∧
    ((searchDefaultMove m a rd).1).max_payload = a.max_payload := by
  simp only [searchDefaultMove]
  split <;> exact searchLockCheck_payload m _

theorem searchForTarget_payload (a : NanobotAgent) (m : TumorNanobotModel)
    (g : List (ℕ × (ℝ × ℝ))) (lr : Except String String) (rd : ℝ × ℝ)
    (a' : NanobotAgent) (m' : TumorNanobotModel)
    (h : a.searchForTarget m g lr rd = Except.ok (a', m')) :
    a'.drug_payload = a.drug_payload ∧ a'.max_payload = a.max_payload := by
  simp only [NanobotAgent.searchForTarget] at h
  split at h
  · cases h
  · split at h
    · split at h
      · split at h
        · split at h
          · rw [Except.ok.injEq, Prod.mk.injEq] at h
            rw [← h.1]
            exact ⟨rfl, rfl⟩
          · rw [Except.ok.injEq] at h
            have h1 := congrArg Prod.fst h
            simp only at h1
            rw [← h1]
            exact searchDefaultMove_payload m _ rd
        · split at h
          · split at h
            · rw [Except.ok.injEq, Prod.mk.injEq] at h
              rw [← h.1]
              exact ⟨rfl, rfl⟩
            · rw [Except.ok.injEq] at h
              have h1 := congrArg Prod.fst h
              simp only at h1
              rw [← h1]
              exact searchDefaultMove_payload m _ rd
          · rw [Except.ok.injEq] at h
            have h1 := congrArg Prod.fst h
            simp only at h1
            rw [← h1]
            exact searchDefaultMove_payload m _ rd
      · rw [Except.ok.injEq] at h
        have h1 := congrArg Prod.fst h
        simp only at h1
        rw [← h1]
        exact searchDefaultMove_payload _ _ rd
    · rw [Except.ok.injEq] at h
      have h1 := congrArg Prod.fst h
      simp only at h1
      rw [← h1]
      exact searchDefaultMove_payload m _ rd

theorem moveTowardTarget_payload (a : NanobotAgent) (m : TumorNanobotModel) :
    ((a.moveTowardTarget m).1).drug_payload = a.drug_payload ∧
    ((a.moveTowardTarget m).1).max_payload = a.max_payload := by
  simp only [NanobotAgent.moveTowardTarget]
  split
  · exact ⟨rfl, rfl⟩
  · split
    · exact ⟨rfl, rfl⟩
    · split
      · exact ⟨rfl, rfl⟩
      · exact ⟨rfl, rfl⟩

theorem returnToVessel_payload (a : NanobotAgent) (m : TumorNanobotModel) :
    ((a.returnToVessel m).1).drug_payload = a.drug_payload ∧
    ((a.returnToVessel m).1).max_payload = a.max_payload := by
  simp only [NanobotAgent.returnToVessel]
  split <;> split <;> first
    | exact ⟨rfl, rfl⟩
    | (split <;> exact ⟨rfl, rfl⟩)

theorem reloadDrug_payload (a : NanobotAgent) (m : TumorNanobotModel) :
    ((a.reloadDrug m).1).drug_payload = min (a.drug_payload + 20) a.max_payload ∧
    ((a.reloadDrug m).1).max_payload = a.max_payload := by
  simp only [NanobotAgent.reloadDrug]
  split <;> exact ⟨rfl, rfl⟩

theorem deliverDrug_payload (a : NanobotAgent) (m : TumorNanobotModel) :
    ((a.deliverDrug m).1).max_payload = a.max_payload ∧
    (((a.deliverDrug m).1).drug_payload = a.drug_payload ∨
      (a.drug_payload > 0 ∧
        ((a.deliverDrug m).1).drug_payload =
          a.drug_payload - min a.drug_payload 100)) := by
  unfold NanobotAgent.deliverDrug
  cases hT : a.target_cell with
  | none => exact ⟨rfl, Or.inl rfl⟩
  | some i =>
    simp only
    split
    · exact ⟨rfl, Or.inl rfl⟩
    · cases hD : m.microenv.get_substrate "drug" with
      | none =>
        simp only [hD]
        split
        · exact ⟨rfl, Or.inl rfl⟩
        · exact ⟨rfl, Or.inl rfl⟩
      | some d =>
        simp only [hD]
        by_cases hp : a.drug_payload > 0
        · rw [if_pos hp]
          repeat' split
          all_goals exact ⟨rfl, Or.inr ⟨hp, rfl⟩⟩
        · rw [if_neg hp]
          repeat' split
          all_goals exact ⟨rfl, Or.inl rfl⟩

/-- C7: Payload bounds invariant — for every nanobot agent and every tick
that completes, 0 <= drug payload <= max payload is preserved; a delivering
step removes at most the current payload (min(payload, 100), only when
positive), and a reloading step adds the fixed 20 units/tick reload rate
capped at maximum payload. -/
theorem nanobot_payload_bounds (m : TumorNanobotModel) (a : NanobotAgent)
    (guidance : List (ℕ × (ℝ × ℝ))) (llmResult : Except String String)
    (randDir : ℝ × ℝ) (h0 : 0 ≤ a.drug_payload)
    (h1 : a.drug_payload ≤ a.max_payload)
    (a' : NanobotAgent) (m' : TumorNanobotModel)
    (h : a.stepA m guidance llmResult randDir = Except.ok (a', m')) :
    (0 ≤ a'.drug_payload ∧ a'.drug_payload ≤ a'.max_payload) ∧
    a'.max_payload = a.max_payload ∧
    (a.state = NanobotState.DELIVERING → a'.drug_payload ≤ a.drug_payload) ∧
    (a.state = NanobotState.RELOADING →
      a'.drug_payload = min (a.drug_payload + 20) a.max_payload) := by
  have hmax0 : (0 : ℚ) ≤ a.max_payload := le_trans h0 h1
  have hmin0 : (0 : ℚ) ≤ min a.drug_payload 100 :=
    le_min h0 (by norm_num)
  simp only [NanobotAgent.stepA] at h
  cases hs : a.state with
  | RELOADING =>
    simp only [hs, Except.ok.injEq] at h
    have hfst := congrArg Prod.fst h
    simp only at hfst
    rw [← hfst]
    rcases reloadDrug_payload { a with state := NanobotState.RELOADING, move_history := a.move_history ++ [posXY a.position] } m with ⟨hp, hm⟩
    rw [hp, hm]
    refine ⟨⟨?_, ?_⟩, rfl, ?_, ?_⟩
    · exact le_min (add_nonneg h0 (by norm_num)) hmax0
    · exact min_le_right _ _
    · intro hc; simp at hc
    · intro _; rfl
  | DELIVERING =>
    simp only [hs, Except.ok.injEq] at h
    have hfst := congrArg Prod.fst h
    simp only at hfst
    rw [← hfst]
    rcases deliverDrug_payload { a with state := NanobotState.DELIVERING, move_history := a.move_history ++ [posXY a.position] } m with ⟨hm, hp⟩
    rw [hm]
    rcases hp with hp | ⟨hpos, hp⟩ <;> rw [hp]
    · refine ⟨⟨h0, h1⟩, rfl, ?_, ?_⟩
      · intro _; exact le_refl _
      · intro hc; simp at hc
    · refine ⟨⟨?_, ?_⟩, rfl, ?_, ?_⟩
      · exact sub_nonneg.mpr (min_le_left _ _)
      · exact le_trans (sub_le_self _ hmin0) h1
      · intro _; exact sub_le_self _ hmin0
      · intro hc; simp at hc
  | RETURNING =>
    simp only [hs, Except.ok.injEq] at h
    have hfst := congrArg Prod.fst h
    simp only at hfst
    rw [← hfst]
    rcases returnToVessel_payload { a with state := NanobotState.RETURNING, move_history := a.move_history ++ [posXY a.position] } m with ⟨hp, hm⟩
    rw [hp, hm]
    refine ⟨⟨h0, h1⟩, rfl, ?_, ?_⟩
    · intro hc; simp at hc
    · intro hc; simp at hc
  | TARGETING =>
    simp only [hs, Except.ok.injEq] at h
    have hfst := congrArg Prod.fst h
    simp only at hfst
    rw [← hfst]
    rcases moveTowardTarget_payload { a with state := NanobotState.TARGETING, move_history := a.move_history ++ [posXY a.position] } m with ⟨hp, hm⟩
    rw [hp, hm]
    refine ⟨⟨h0, h1⟩, rfl, ?_, ?_⟩
    · intro hc; simp at hc
    · intro hc; simp at hc
  | SEARCHING =>
    simp only [hs] at h
    rcases searchForTarget_payload { a with state := NanobotState.SEARCHING, move_history := a.move_history ++ [posXY a.position] } m guidance llmResult randDir a' m' h with ⟨hp, hm⟩
    rw [hp, hm]
    refine ⟨⟨h0, h1⟩, rfl, ?_, ?_⟩
    · intro hc; simp at hc
    · intro hc; simp at hc

def c7AgentAfter : NanobotAgent :=
  { c8Agent with
    state := NanobotState.SEARCHING
    target_vessel := none
    move_history := [(10, 10)] }

theorem nanobot_payload_bounds_witness :
    (0 ≤ c7AgentAfter.drug_payload ∧
      c7AgentAfter.drug_payload ≤ c7AgentAfter.max_payload) ∧
    c7AgentAfter.max_payload = c8Agent.max_payload ∧
    (c8Agent.state = NanobotState.DELIVERING →
      c7AgentAfter.drug_payload ≤ c8Agent.drug_payload) ∧
    (c8Agent.state = NanobotState.RELOADING →
      c7AgentAfter.drug_payload = min (c8Agent.drug_payload + 20) c8Agent.max_payload) :=
  nanobot_payload_bounds c8Model c8Agent [] (Except.ok "explore") (1, 0)
    (by norm_num [c8Agent]) (by norm_num [c8Agent]) c7AgentAfter c8Model rfl

/-! ## Drug delivery (C1) -/

theorem lookupSubstrate_modify_self (l : List (String × SubstrateField))
    (n : String) (f : SubstrateField → SubstrateField) :
    lookupSubstrate (l.map (fun p => if p.1 = n then (p.1, f p.2) else p)) n =
      (lookupSubstrate l n).map f := by
  induction l with
  | nil => rfl
  | cons p rest ih =>
    by_cases h : p.1 = n
    · simp [lookupSubstrate, h]
    · simp [lookupSubstrate, h, ih]

theorem lookupSubstrate_modify_other (l : List (String × SubstrateField))
    (n n' : String) (f : SubstrateField → SubstrateField) (hne : n' ≠ n) :
    lookupSubstrate (l.map (fun p => if p.1 = n then (p.1, f p.2) else p)) n' =
      lookupSubstrate l n' := by
  induction l with
  | nil => rfl
  | cons p rest ih =>
    by_cases h : p.1 = n
    · have hn2 : ¬(n = n') := fun hc => hne hc.symm
      simp [lookupSubstrate, h, hn2, ih]
    · by_cases h2 : p.1 = n'
      · simp [lookupSubstrate, h, h2, hne]
      · simp [lookupSubstrate, h, h2, ih]

theorem get_substrate_modify_self (env : Microenvironment) (n : String)
    (f : SubstrateField → SubstrateField) :
    (modifySubstrate env n f).get_substrate n = (env.get_substrate n).map f :=
  lookupSubstrate_modify_self env.substrates n f

theorem get_substrate_modify_other (env : Microenvironment) (n n' : String)
    (f : SubstrateField → SubstrateField) (hne : n' ≠ n) :
    (modifySubstrate env n f).get_substrate n' = env.get_substrate n' :=
  lookupSubstrate_modify_other env.substrates n n' f hne

theorem add_source_apply (s : SubstrateField) (p : ℤ × ℤ × ℤ) (amount : ℚ)
    (h1 : 0 ≤ p.1) (h2 : p.1 < s.nx) (h3 : 0 ≤ p.2.1) (h4 : p.2.1 < s.ny)
    (h5 : 0 ≤ p.2.2) (h6 : p.2.2 < s.nz) :
    (s.add_source p amount).source_sink p.1 p.2.1 p.2.2 =
      s.source_sink p.1 p.2.1 p.2.2 + amount := by
  simp [SubstrateField.add_source, h1, h2, h3, h4, h5, h6, updateGrid]

theorem clipZ_mem (i lo hi : ℤ) (h : lo ≤ hi) :
    lo ≤ clipZ i lo hi ∧ clipZ i lo hi ≤ hi := by
  unfold clipZ
  constructor
  · exact le_max_left _ _
  · exact max_le h (min_le_right _ _)

theorem position_to_voxel_range (env : Microenvironment) (pos : ℝ × ℝ × ℝ)
    (hx : 1 ≤ env.nx) (hy : 1 ≤ env.ny) (hz : 1 ≤ env.nz) :
    0 ≤ (env.position_to_voxel pos).1 ∧ (env.position_to_voxel pos).1 < env.nx ∧
    0 ≤ (env.position_to_voxel pos).2.1 ∧ (env.position_to_voxel pos).2.1 < env.ny ∧
    0 ≤ (env.position_to_voxel pos).2.2 ∧ (env.position_to_voxel pos).2.2 < env.nz := by
  have hx' : (0 : ℤ) ≤ env.nx - 1 := by omega
  have hy' : (0 : ℤ) ≤ env.ny - 1 := by omega
  have hz' : (0 : ℤ) ≤ env.nz - 1 := by omega
  have cx := clipZ_mem (pyTruncR ((pos.1 - (env.xlo : ℝ)) / (env.dx : ℝ))) 0 (env.nx - 1) hx'
  have cy := clipZ_mem (pyTruncR ((pos.2.1 - (env.ylo : ℝ)) / (env.dy : ℝ))) 0 (env.ny - 1) hy'
  have cz := clipZ_mem (if env.dimensionality = 2 then 0
    else pyTruncR ((pos.2.2 - (env.zlo : ℝ)) / (env.dz : ℝ))) 0 (env.nz - 1) hz'
  have e1 : (env.position_to_voxel pos).1 =
    clipZ (pyTruncR ((pos.1 - (env.xlo : ℝ)) / (env.dx : ℝ))) 0 (env.nx - 1) := rfl
  have e2 : (env.position_to_voxel pos).2.1 =
    clipZ (pyTruncR ((pos.2.1 - (env.ylo : ℝ)) / (env.dy : ℝ))) 0 (env.ny - 1) := rfl
  have e3 : (env.position_to_voxel pos).2.2 =
    clipZ (if env.dimensionality = 2 then 0
      else pyTruncR ((pos.2.2 - (env.zlo : ℝ)) / (env.dz : ℝ))) 0 (env.nz - 1) := rfl
  rw [e1, e2, e3]
  exact ⟨cx.1, by omega, cy.1, by omega, cz.1, by omega⟩

theorem log_cell_interaction_fields (m : TumorNanobotModel) (kind : String)
    (cell : TumorCell) (nid : Option ℕ) (amount : ℚ) :
    (m.log_cell_interaction kind cell nid amount).microenv = m.microenv ∧
    (m.log_cell_interaction kind cell nid amount).geometry = m.geometry := by
  unfold TumorNanobotModel.log_cell_interaction
  split <;> exact ⟨rfl, rfl⟩

theorem getD_of_get? {α : Type} (l : List α) (i : ℕ) (c dflt : α)
    (h : l.get? i = some c) : l.getD i dflt = c := by
  rw [List.getD_eq_getElem?_getD, ← List.get?_eq_getElem?, h]
  rfl

theorem log_cell_interaction_microenv (m : TumorNanobotModel) (kind : String)
    (cell : TumorCell) (nid : Option ℕ) (amount : ℚ) :
    (m.log_cell_interaction kind cell nid amount).microenv = m.microenv :=
  (log_cell_interaction_fields m kind cell nid amount).1

theorem log_cell_interaction_geometry (m : TumorNanobotModel) (kind : String)
    (cell : TumorCell) (nid : Option ℕ) (amount : ℚ) :
    (m.log_cell_interaction kind cell nid amount).geometry = m.geometry :=
  (log_cell_interaction_fields m kind cell nid amount).2

/-- C1: Forced kill by direct dose — for a living target cell with lethal
dose 100 and no prior dose, and an agent locked onto it with full payload
(100 units) executing one delivering step: 100 drug units are added to the
local voxel's entry of the drug field's source accumulator, the dose is
applied directly to the target cell which ends Apoptotic and dead with
accumulated dose 100, and the agent's delivery counter ends at 1 (and the
agent turns to Returning). TumorCell.accumulate_drug is modelled from the
spec because the method is absent from tumor_environment.py. -/
theorem forced_kill_by_dose
    (m : TumorNanobotModel) (a : NanobotAgent) (i : ℕ) (c : TumorCell)
    (d : SubstrateField)
    (ht : a.target_cell = some i)
    (hc : m.geometry.tumor_cells.get? i = some c)
    (halive : c.is_alive = true)
    (hlethal : c.lethal_drug_dose = 100)
    (hacc : c.accumulated_drug = 0)
    (hpay : a.drug_payload = 100)
    (hdel : a.deliveries_made = 0)
    (hdrug : m.microenv.get_substrate "drug" = some d)
    (hdx : d.nx = m.microenv.nx) (hdy : d.ny = m.microenv.ny)
    (hdz : d.nz = m.microenv.nz)
    (hx1 : 1 ≤ m.microenv.nx) (hy1 : 1 ≤ m.microenv.ny) (hz1 : 1 ≤ m.microenv.nz) :
    (∃ d2, ((a.deliverDrug m).2).microenv.get_substrate "drug" = some d2 ∧
      d2.source_sink (m.microenv.position_to_voxel a.position).1
          (m.microenv.position_to_voxel a.position).2.1
          (m.microenv.position_to_voxel a.position).2.2 =
        d.source_sink (m.microenv.position_to_voxel a.position).1
          (m.microenv.position_to_voxel a.position).2.1
          (m.microenv.position_to_voxel a.position).2.2 + 100) ∧
    (∃ c2, ((a.deliverDrug m).2).geometry.tumor_cells.get? i = some c2 ∧
      c2.phase = CellPhase.APOPTOTIC ∧ c2.is_alive = false ∧
      c2.accumulated_drug = 100) ∧
    ((a.deliverDrug m).1).deliveries_made = 1 ∧
    ((a.deliverDrug m).1).state = NanobotState.RETURNING := by
  have hgetD : m.geometry.tumor_cells.getD i (TumorCell.mkNew 0 (0, 0, 0)) = c :=
    getD_of_get? _ _ _ _ hc
  have hlen : i < m.geometry.tumor_cells.length := (List.get?_eq_some.mp hc).1
  have hcond : c.lethal_drug_dose ≤ c.accumulated_drug + 100 := by
    rw [hacc, hlethal]; norm_num
  have haccEq : c.accumulate_drug 100 =
      ({ c with accumulated_drug := c.accumulated_drug + 100, phase := CellPhase.APOPTOTIC, is_alive := false, time_of_death := some "apoptosis" }, true) := by
    simp [TumorCell.accumulate_drug, halive, hcond]
  obtain ⟨hv1, hv2, hv3, hv4, hv5, hv6⟩ :=
    position_to_voxel_range m.microenv a.position hx1 hy1 hz1
  have htr : ∀ f : SubstrateField → SubstrateField,
      (modifySubstrate m.microenv "drug" f).get_substrate "trail" =
        m.microenv.get_substrate "trail" :=
    fun f => get_substrate_modify_other m.microenv "drug" "trail" f (by decide)
  have hd1 : ∀ f : SubstrateField → SubstrateField,
      (modifySubstrate m.microenv "drug" f).get_substrate "drug" = some (f d) := by
    intro f
    rw [get_substrate_modify_self, hdrug]
    rfl
  have hd2 : ∀ f g,
      (modifySubstrate (modifySubstrate m.microenv "drug" f) "trail" g).get_substrate
        "drug" = some (f d) := by
    intro f g
    rw [get_substrate_modify_other _ _ _ _ (by decide), hd1]
  have hsetget : ∀ (x : TumorCell), (m.geometry.tumor_cells.set i x).get? i = some x := by
    intro x
    rw [List.get?_eq_getElem?, List.getElem?_set_self']
    simp [List.getElem?_eq_getElem hlen]
  have hsrc := add_source_apply d (m.microenv.position_to_voxel a.position) 100
    hv1 (hdx ▸ hv2) hv3 (hdy ▸ hv4) hv5 (hdz ▸ hv6)
  cases hTrail : m.microenv.get_substrate "trail" with
  | none =>
    simp only [NanobotAgent.deliverDrug, ht, hgetD, halive, hdrug, hpay, min_self,
      haccEq, hdel, log_cell_interaction_microenv, log_cell_interaction_geometry,
      show (0 : ℚ) < 100 by norm_num, Bool.true_eq_false, if_false, if_true,
      eq_self_iff_true, true_or, or_true, hacc, zero_add, sub_self, htr, hTrail]
    exact ⟨⟨_, hd1 _, hsrc⟩, ⟨_, hsetget _, by trivial, by trivial, by trivial⟩, by trivial, by trivial⟩
  | some t =>
    simp only [NanobotAgent.deliverDrug, ht, hgetD, halive, hdrug, hpay, min_self,
      haccEq, hdel, log_cell_interaction_microenv, log_cell_interaction_geometry,
      show (0 : ℚ) < 100 by norm_num, Bool.true_eq_false, if_false, if_true,
      eq_self_iff_true, true_or, or_true, hacc, zero_add, sub_self, htr, hTrail]
    exact ⟨⟨_, hd2 _ _, hsrc⟩, ⟨_, hsetget _, by trivial, by trivial, by trivial⟩, by trivial, by trivial⟩

def c1Cell : TumorCell := TumorCell.mkNew 5 (100, 100, 0)

def c1Drug : SubstrateField := SubstrateField.mkNew "drug" 3 3 1 600 (1/20) 0 (some 0)

def c1Env : Microenvironment :=
  { xlo := 0, xhi := 40, ylo := 0, yhi := 40, zlo := 0, zhi := 40,
    dx := 20, dy := 20, dz := 1, dimensionality := 2, nx := 3, ny := 3, nz := 1,
    substrates := [("drug", c1Drug)], time := 0, dt := 1/2400 }

def c1Geometry : TumorGeometry :=
  { center := (0, 0, 0), tumor_radius := 200, necrotic_core_radius := 50,
    vessel_density := 1/100, tumor_cells := [c1Cell], vessels := [] }

def c1Model : TumorNanobotModel :=
  { c8Model with microenv := c1Env, geometry := c1Geometry }

def c1Agent : NanobotAgent :=
  { c8Agent with
    state := NanobotState.DELIVERING
    target_cell := some 0
    drug_payload := 100 }

theorem forced_kill_by_dose_witness :
    (∃ d2, ((c1Agent.deliverDrug c1Model).2).microenv.get_substrate "drug" = some d2 ∧
      d2.source_sink (c1Model.microenv.position_to_voxel c1Agent.position).1
          (c1Model.microenv.position_to_voxel c1Agent.position).2.1
          (c1Model.microenv.position_to_voxel c1Agent.position).2.2 =
        c1Drug.source_sink (c1Model.microenv.position_to_voxel c1Agent.position).1
          (c1Model.microenv.position_to_voxel c1Agent.position).2.1
          (c1Model.microenv.position_to_voxel c1Agent.position).2.2 + 100) ∧
    (∃ c2, ((c1Agent.deliverDrug c1Model).2).geometry.tumor_cells.get? 0 = some c2 ∧
      c2.phase = CellPhase.APOPTOTIC ∧ c2.is_alive = false ∧
      c2.accumulated_drug = 100) ∧
    ((c1Agent.deliverDrug c1Model).1).deliveries_made = 1 ∧
    ((c1Agent.deliverDrug c1Model).1).state = NanobotState.RETURNING :=
  forced_kill_by_dose c1Model c1Agent 0 c1Cell c1Drug rfl rfl rfl rfl rfl rfl rfl
    rfl rfl rfl rfl (by decide) (by decide) (by decide)

/-- The call-compatibility gate rejects the call site's keyword argument:
TumorCell.update_oxygen_status declares no parameter named log_callback. -/
theorem callUpdateOxygenStatus_raises (c : TumorCell) (oxygen dtv : ℚ) :
    callUpdateOxygenStatus c oxygen dtv =
      Except.error updateOxygenStatusTypeError := rfl

theorem updateTumorCellsGo_error (cells : List TumorCell) :
    ∀ (m : TumorNanobotModel) (k : ℕ),
      (∃ c ∈ cells, c.is_alive = true) →
      updateTumorCellsGo m k cells = Except.error updateOxygenStatusTypeError := by
  induction cells with
  | nil =>
    intro m k h
    rcases h with ⟨c, hmem, _⟩
    cases hmem
  | cons c rest ih =>
    intro m k h
    by_cases ha : c.is_alive = false
    · have htail : ∃ c2 ∈ rest, c2.is_alive = true := by
        rcases h with ⟨c2, hmem, halive2⟩
        rcases List.mem_cons.mp hmem with hcc | hcc
        · exact absurd halive2 (by rw [hcc]; simp [ha])
        · exact ⟨c2, hcc, halive2⟩
      simp only [updateTumorCellsGo, ha, if_true]
      exact ih _ _ htail
    · simp only [updateTumorCellsGo, ha, if_false]
      rfl

/-- C2: Per-tick ordered data flow — the claim fails on the code: on any
model with at least one living tumor cell, the tick raises instead of
completing. TumorNanobotModel._update_tumor_cells (nanobot_simulation.py
line 942) calls cell.update_oxygen_status(oxygen, dt, log_callback=...),
but TumorCell.update_oxygen_status (tumor_environment.py line 62) accepts
only (oxygen_concentration, dt), so the second phase of the tick raises
TypeError and the remaining phases never run. -/
theorem model_step_raises_on_living_cell (m : TumorNanobotModel)
    (llmOracle : ℕ → Except String String) (randOracle : ℕ → ℝ × ℝ)
    (h : ∃ c ∈ m.geometry.tumor_cells, c.is_alive = true) :
    m.stepM llmOracle randOracle = Except.error updateOxygenStatusTypeError := by
  have hup : TumorNanobotModel.updateTumorCells
      { { m with step_count := m.step_count + 1 } with
        microenv := { m with step_count := m.step_count + 1 }.microenv.reset_all_sources_sinks } =
      Except.error updateOxygenStatusTypeError := by
    unfold TumorNanobotModel.updateTumorCells
    exact updateTumorCellsGo_error m.geometry.tumor_cells _ 0 h
  simp only [TumorNanobotModel.stepM, bind, Except.bind, hup]

def c2Oracle : ℕ → Except String String := fun _ => Except.ok "explore"

def c2Rand : ℕ → ℝ × ℝ := fun _ => (1, 0)

theorem model_step_raises_on_living_cell_witness :
    c1Model.stepM c2Oracle c2Rand = Except.error updateOxygenStatusTypeError :=
  model_step_raises_on_living_cell c1Model c2Oracle c2Rand
    ⟨c1Cell, List.mem_singleton.mpr rfl, rfl⟩

/-! ## Target selection (C5) -/

/-- Python min keeps the first element attaining the minimum: membership. -/
theorem foldlMin_mem (cs : List (ℕ × ℝ)) :
    ∀ c : ℕ × ℝ, cs.foldl (fun b q => if q.2 < b.2 then q else b) c ∈ c :: cs := by
  induction cs with
  | nil => intro c; exact List.mem_singleton.mpr rfl
  | cons q cs ih =>
    intro c
    show cs.foldl (fun b q => if q.2 < b.2 then q else b) (if q.2 < c.2 then q else c) ∈
      c :: q :: cs
    have h := ih (if q.2 < c.2 then q else c)
    rcases List.mem_cons.mp h with h1 | h1
    · rw [h1]
      by_cases hlt : q.2 < c.2
      · simp [hlt]
      · simp [hlt]
    · exact List.mem_cons.mpr (Or.inr (List.mem_cons.mpr (Or.inr h1)))

/-- Python min: the result's key is minimal over the start and the list. -/
theorem foldlMin_le (cs : List (ℕ × ℝ)) :
    ∀ c : ℕ × ℝ, ∀ x ∈ c :: cs,
      (cs.foldl (fun b q => if q.2 < b.2 then q else b) c).2 ≤ x.2 := by
  induction cs with
  | nil =>
    intro c x hx
    rcases List.mem_cons.mp hx with h | h
    · rw [h]; exact le_refl _
    · cases h
  | cons q cs ih =>
    intro c x hx
    show (cs.foldl (fun b q => if q.2 < b.2 then q else b) (if q.2 < c.2 then q else c)).2 ≤ x.2
    have hstart_c : (if q.2 < c.2 then q else c).2 ≤ c.2 := by
      by_cases hlt : q.2 < c.2
      · simp [hlt]; exact le_of_lt hlt
      · simp [hlt]
    have hstart_q : (if q.2 < c.2 then q else c).2 ≤ q.2 := by
      by_cases hlt : q.2 < c.2
      · simp [hlt]
      · simp [hlt]; exact le_of_not_lt hlt
    have hself := ih (if q.2 < c.2 then q else c) _ (List.mem_cons_self _ _)
    rcases List.mem_cons.mp hx with h | h
    · rw [h]; exact le_trans hself hstart_c
    · rcases List.mem_cons.mp h with h2 | h2
      · rw [h2]; exact le_trans hself hstart_q
      · exact ih _ x (List.mem_cons.mpr (Or.inr h2))

/-- Every in-range pool member appears among the collected candidates. -/
theorem collectCandidates_mem (apos : ℝ × ℝ × ℝ) (maxd : ℚ) :
    ∀ (pool : List (ℕ × TumorCell)) (q : ℕ × TumorCell), q ∈ pool →
      dist2D (posXY q.2.position) (posXY apos) ≤ (maxd : ℝ) →
      (q.1, targetScore apos q.2) ∈ collectCandidates apos maxd pool := by
  intro pool
  induction pool with
  | nil => intro q hq; cases hq
  | cons p rest ih =>
    intro q hq hd
    rcases List.mem_cons.mp hq with h | h
    · subst h
      simp only [collectCandidates, if_pos hd]
      exact List.mem_cons_self _ _
    · simp only [collectCandidates]
      split
      · exact List.mem_cons.mpr (Or.inr (ih q h hd))
      · exact ih q h hd

/-- Every collected candidate is an in-range pool member with its score. -/
theorem collectCandidates_elem (apos : ℝ × ℝ × ℝ) (maxd : ℚ) :
    ∀ (pool : List (ℕ × TumorCell)) (x : ℕ × ℝ), x ∈ collectCandidates apos maxd pool →
      ∃ q ∈ pool, x = (q.1, targetScore apos q.2) ∧
        dist2D (posXY q.2.position) (posXY apos) ≤ (maxd : ℝ) := by
  intro pool
  induction pool with
  | nil => intro x hx; cases hx
  | cons p rest ih =>
    intro x hx
    simp only [collectCandidates] at hx
    by_cases hd : dist2D (posXY p.2.position) (posXY apos) ≤ (maxd : ℝ)
    · rw [if_pos hd] at hx
      rcases List.mem_cons.mp hx with h | h
      · exact ⟨p, List.mem_cons_self _ _, h, hd⟩
      · rcases ih x h with ⟨q, hq, hxq, hdq⟩
        exact ⟨q, List.mem_cons.mpr (Or.inr hq), hxq, hdq⟩
    · rw [if_neg hd] at hx
      rcases ih x hx with ⟨q, hq, hxq, hdq⟩
      exact ⟨q, List.mem_cons.mpr (Or.inr hq), hxq, hdq⟩

/-- A pool member within range forces _find_nearest_hypoxic_cell to return
the index of a pool member whose score is minimal among all in-range pool
members. -/
theorem findNearestHypoxicCell_spec (g : TumorGeometry) (apos : ℝ × ℝ × ℝ)
    (maxd : ℚ) (q : ℕ × TumorCell) (hq : q ∈ hypoxicPool g)
    (hd : dist2D (posXY q.2.position) (posXY apos) ≤ (maxd : ℝ)) :
    ∃ p ∈ hypoxicPool g,
      findNearestHypoxicCell g apos maxd = some p.1 ∧
      dist2D (posXY p.2.position) (posXY apos) ≤ (maxd : ℝ) ∧
      ∀ r ∈ hypoxicPool g, dist2D (posXY r.2.position) (posXY apos) ≤ (maxd : ℝ) →
        targetScore apos p.2 ≤ targetScore apos r.2 := by
  have hmem := collectCandidates_mem apos maxd (hypoxicPool g) q hq hd
  have hne : ¬(hypoxicPool g).isEmpty := by
    cases hpool : hypoxicPool g with
    | nil => rw [hpool] at hq; cases hq
    | cons a rest => simp
  unfold findNearestHypoxicCell
  rw [if_neg hne]
  cases hcand : collectCandidates apos maxd (hypoxicPool g) with
  | nil => rw [hcand] at hmem; cases hmem
  | cons c0 cs =>
    set best := cs.foldl (fun b q => if q.2 < b.2 then q else b) c0 with hbest
    have hbmem : best ∈ c0 :: cs := foldlMin_mem cs c0
    rw [← hcand] at hbmem
    rcases collectCandidates_elem apos maxd (hypoxicPool g) best hbmem with
      ⟨p, hp, hbp, hdp⟩
    refine ⟨p, hp, ?_, hdp, ?_⟩
    · exact congrArg (fun z : ℕ × ℝ => some z.1) hbp
    · intro r hr hdr
      have hrmem := collectCandidates_mem apos maxd (hypoxicPool g) r hr hdr
      rw [hcand] at hrmem
      have := foldlMin_le cs c0 _ hrmem
      rw [← hbest] at this
      calc targetScore apos p.2 = best.2 := by rw [hbp]
        _ ≤ (r.1, targetScore apos r.2).2 := this
        _ = targetScore apos r.2 := rfl

def c5CellH : TumorCell := TumorCell.mkNew 0 (200, 0, 0) 10 CellPhase.HYPOXIC

def c5CellV : TumorCell := TumorCell.mkNew 1 (5, 0, 0) 10 CellPhase.VIABLE

def c5Geometry : TumorGeometry :=
  { center := (0, 0, 0), tumor_radius := 200, necrotic_core_radius := 50,
    vessel_density := 1/100, tumor_cells := [c5CellH, c5CellV], vessels := [] }

def c5Model : TumorNanobotModel :=
  { c8Model with geometry := c5Geometry }

def c5Agent : NanobotAgent :=
  { c8Agent with state := NanobotState.SEARCHING, position := (0, 0, 0) }

theorem c5_pool_eq : hypoxicPool c5Model.geometry = [(0, c5CellH)] := rfl

theorem c5_far_hypoxic :
    ¬(dist2D (posXY c5CellH.position) (posXY c5Agent.position) ≤ ((30 : ℚ) : ℝ)) := by
  have h : dist2D (posXY c5CellH.position) (posXY c5Agent.position) = 200 := by
    show Real.sqrt (((200 : ℝ) - 0) ^ 2 + ((0 : ℝ) - 0) ^ 2) = 200
    rw [show ((200 : ℝ) - 0) ^ 2 + ((0 : ℝ) - 0) ^ 2 = 200 ^ 2 by norm_num]
    exact Real.sqrt_sq (by norm_num)
  rw [h]
  norm_num

theorem c5_find_none :
    findNearestHypoxicCell c5Model.geometry c5Agent.position 30 = none := by
  unfold findNearestHypoxicCell
  rw [c5_pool_eq]
  rw [if_neg (by simp)]
  simp only [collectCandidates, if_neg c5_far_hypoxic]

/-- C5 counterexample: the claim as stated is false at this input. A living
(Viable) cell lies 5 um from the Searching agent, well inside the 30 um
search radius, and the payload exceeds the minimum — yet the agent locks
nothing and stays Searching, because a Hypoxic cell exists (at distance
200 um) and the candidate pool is then restricted to Hypoxic cells only. -/
theorem search_lock_counterexample :
    c5Agent.drug_payload > 10 ∧
    (∃ cl ∈ c5Model.geometry.get_living_cells,
      dist2D (posXY cl.position) (posXY c5Agent.position) ≤ ((30 : ℚ) : ℝ)) ∧
    ((searchLockCheck c5Model c5Agent).1).state = NanobotState.SEARCHING ∧
    ((searchLockCheck c5Model c5Agent).1).target_cell = none := by
  refine ⟨by norm_num [c5Agent, c8Agent], ⟨c5CellV, ?_, ?_⟩, ?_, ?_⟩
  · exact List.mem_cons.mpr (Or.inr (List.mem_singleton.mpr rfl))
  · have h : dist2D (posXY c5CellV.position) (posXY c5Agent.position) = 5 := by
      show Real.sqrt (((5 : ℝ) - 0) ^ 2 + ((0 : ℝ) - 0) ^ 2) = 5
      rw [show ((5 : ℝ) - 0) ^ 2 + ((0 : ℝ) - 0) ^ 2 = 5 ^ 2 by norm_num]
      exact Real.sqrt_sq (by norm_num)
    rw [h]
    norm_num
  · unfold searchLockCheck
    rw [c5_find_none]
    rfl
  · unfold searchLockCheck
    rw [c5_find_none]
    rfl

/-- C5 (amended): Searching-state target lock — after a Searching agent with
payload above the minimum threshold moves, if a candidate cell lies within
the fixed 30 um search radius — where the candidates are the living Hypoxic
cells when any Hypoxic cell exists, otherwise all living cells — then the
agent locks the candidate with the lowest combined distance plus
treatment-progress score (accumulated drug relative to the lethal
threshold, spec-modelled required_drug_threshold) and transitions to
Targeting. -/
theorem search_lock_targets_best (m : TumorNanobotModel) (a : NanobotAgent)
    (hpay : a.drug_payload > 10) (q : ℕ × TumorCell)
    (hq : q ∈ hypoxicPool m.geometry)
    (hd : dist2D (posXY q.2.position) (posXY a.position) ≤ ((30 : ℚ) : ℝ)) :
    ∃ p ∈ hypoxicPool m.geometry,
      ((searchLockCheck m a).1).state = NanobotState.TARGETING ∧
      ((searchLockCheck m a).1).target_cell = some p.1 ∧
      dist2D (posXY p.2.position) (posXY a.position) ≤ ((30 : ℚ) : ℝ) ∧
      ∀ r ∈ hypoxicPool m.geometry,
        dist2D (posXY r.2.position) (posXY a.position) ≤ ((30 : ℚ) : ℝ) →
          targetScore a.position p.2 ≤ targetScore a.position r.2 := by
  rcases findNearestHypoxicCell_spec m.geometry a.position 30 q hq hd with
    ⟨p, hp, hfind, hdp, hmin⟩
  refine ⟨p, hp, ?_, ?_, hdp, hmin⟩
  · unfold searchLockCheck
    rw [hfind]
    simp [hpay]
  · unfold searchLockCheck
    rw [hfind]
    simp [hpay]

def c5WCell : TumorCell := TumorCell.mkNew 0 (10, 10, 0) 10 CellPhase.HYPOXIC

def c5WGeometry : TumorGeometry :=
  { c8Geometry with tumor_cells := [c5WCell] }

def c5WModel : TumorNanobotModel :=
  { c8Model with geometry := c5WGeometry }

def c5WAgent : NanobotAgent :=
  { c8Agent with state := NanobotState.SEARCHING }

theorem search_lock_targets_best_witness :
    ∃ p ∈ hypoxicPool c5WModel.geometry,
      ((searchLockCheck c5WModel c5WAgent).1).state = NanobotState.TARGETING ∧
      ((searchLockCheck c5WModel c5WAgent).1).target_cell = some p.1 ∧
      dist2D (posXY p.2.position) (posXY c5WAgent.position) ≤ ((30 : ℚ) : ℝ) ∧
      ∀ r ∈ hypoxicPool c5WModel.geometry,
        dist2D (posXY r.2.position) (posXY c5WAgent.position) ≤ ((30 : ℚ) : ℝ) →
          targetScore c5WAgent.position p.2 ≤ targetScore c5WAgent.position r.2 :=
  search_lock_targets_best c5WModel c5WAgent (by norm_num [c5WAgent, c8Agent])
    (0, c5WCell) (List.mem_singleton.mpr rfl)
    (by
      have h : dist2D (posXY c5WCell.position) (posXY c5WAgent.position) = 0 := by
        show Real.sqrt (((10 : ℝ) - 10) ^ 2 + ((10 : ℝ) - 10) ^ 2) = 0
        rw [show ((10 : ℝ) - 10) ^ 2 + ((10 : ℝ) - 10) ^ 2 = 0 by norm_num]
        exact Real.sqrt_zero
      rw [h]
      norm_num)

/-! ## Point-sink convergence scenario (C9) -/

def c9Base : Microenvironment := mkMicroenvironment 0 400 0 400 0 400 20 20 20 2

def c9Env : Microenvironment := createOxygenSubstrate c9Base 38

/-- The test scenario registers a single sink of magnitude 10 at the center
voxel (nx // 2, ny // 2, 0) of the oxygen field. -/
def c9Start : Microenvironment :=
  modifySubstrate c9Env "oxygen"
    (fun s => s.add_sink (c9Env.nx / 2, c9Env.ny / 2, 0) 10)

def c9After : ℕ → Microenvironment
  | 0 => c9Start
  | k + 1 => (c9After k).step none

def c9Conc (k : ℕ) (i j z : ℤ) : ℚ :=
  match (c9After k).get_substrate "oxygen" with
  | some s => s.concentration i j z
  | none => 0

/-- The invariant carried across the 50 steps of the scenario: the fixed
grid/step data, the single oxygen field with its parameters and sink, and
the voxelwise bounds 0 <= C <= 38. -/
def C9Inv (env : Microenvironment) : Prop :=
  env.dimensionality = 2 ∧ env.nx = 21 ∧ env.ny = 21 ∧
  env.dx = 20 ∧ env.dy = 20 ∧ env.dt = 1/2400 ∧
  ∃ s, env.substrates = [("oxygen", s)] ∧
    s.diffusion_coefficient = 60000 ∧ s.decay_rate = 1/10 ∧
    s.dirichlet_boundary_value = some 38 ∧
    (∀ i j z, s.source_sink i j z ≤ 0) ∧ s.source_sink 10 10 0 = -10 ∧
    (∀ i j z, 0 ≤ s.concentration i j z ∧ s.concentration i j z ≤ 38)

/-- Pointwise unfolding of the face assignments. -/
theorem setFaceXlo_apply (env : Microenvironment) (v : Grid3 → ℤ → ℤ → ℤ → ℚ)
    (c : Grid3) (i j k : ℤ) :
    setFaceXlo env v c i j k = if i = 0 then v c i j k else c i j k := rfl

theorem setFaceXhi_apply (env : Microenvironment) (v : Grid3 → ℤ → ℤ → ℤ → ℚ)
    (c : Grid3) (i j k : ℤ) :
    setFaceXhi env v c i j k = if i = env.nx - 1 then v c i j k else c i j k := rfl

theorem setFaceYlo_apply (env : Microenvironment) (v : Grid3 → ℤ → ℤ → ℤ → ℚ)
    (c : Grid3) (i j k : ℤ) :
    setFaceYlo env v c i j k = if j = 0 then v c i j k else c i j k := rfl

theorem setFaceYhi_apply (env : Microenvironment) (v : Grid3 → ℤ → ℤ → ℤ → ℚ)
    (c : Grid3) (i j k : ℤ) :
    setFaceYhi env v c i j k = if j = env.ny - 1 then v c i j k else c i j k := rfl

theorem setFaceZlo_apply (env : Microenvironment) (v : Grid3 → ℤ → ℤ → ℤ → ℚ)
    (c : Grid3) (i j k : ℤ) :
    setFaceZlo env v c i j k = if k = 0 then v c i j k else c i j k := rfl

theorem setFaceZhi_apply (env : Microenvironment) (v : Grid3 → ℤ → ℤ → ℤ → ℚ)
    (c : Grid3) (i j k : ℤ) :
    setFaceZhi env v c i j k = if k = env.nz - 1 then v c i j k else c i j k := rfl

/-- Dirichlet application keeps a grid bounded between 0 and the boundary
value 38. -/
theorem applyDirichlet38_bound (env : Microenvironment) (c : Grid3)
    (hc : ∀ i j z, 0 ≤ c i j z ∧ c i j z ≤ 38) :
    ∀ i j z, 0 ≤ applyDirichlet env 38 c i j z ∧
      applyDirichlet env 38 c i j z ≤ 38 := by
  intro i j z
  simp only [applyDirichlet]
  constructor <;>
  · split_ifs <;>
    · simp only [setFaceXlo_apply, setFaceXhi_apply, setFaceYlo_apply,
        setFaceYhi_apply, setFaceZlo_apply, setFaceZhi_apply]
      split_ifs
      all_goals first
        | exact (hc _ _ _).1
        | exact (hc _ _ _).2
        | norm_num

/-- In 2-D, a Dirichlet application leaves non-face voxels untouched. -/
theorem applyDirichlet_interior (env : Microenvironment) (c : Grid3) (b : ℚ)
    (i j z : ℤ) (hdim : env.dimensionality = 2)
    (hi0 : ¬(i = 0)) (hi1 : ¬(i = env.nx - 1))
    (hj0 : ¬(j = 0)) (hj1 : ¬(j = env.ny - 1)) :
    applyDirichlet env b c i j z = c i j z := by
  simp only [applyDirichlet, setFaceXlo_apply, setFaceXhi_apply, setFaceYlo_apply,
    setFaceYhi_apply, setFaceZlo_apply, setFaceZhi_apply,
    if_neg (show ¬(env.dimensionality = 3) by rw [hdim]; norm_num),
    if_neg hj1, if_neg hj0, if_neg hi1, if_neg hi0]

/-- Unfolding of the FTCS update at one voxel for a Dirichlet field. -/
theorem simulate_dd_conc_dirichlet (env : Microenvironment) (s : SubstrateField)
    (b : ℚ) (hbv : s.dirichlet_boundary_value = some b) (dtv : ℚ) (i j k : ℤ) :
    (env.simulate_diffusion_decay s dtv).concentration i j k =
      max (applyDirichlet env b s.concentration i j k +
        dtv * (s.diffusion_coefficient * laplacianAt env s.concentration i j k -
          s.decay_rate * applyDirichlet env b s.concentration i j k +
          s.source_sink i j k)) 0 := by
  unfold Microenvironment.simulate_diffusion_decay
  rw [hbv]

/-- The 2-D five-point stencil on an interior voxel. -/
theorem laplacianAt_2d_interior (env : Microenvironment) (c : Grid3) (i j k : ℤ)
    (hdim : env.dimensionality = 2)
    (hin : 1 ≤ i ∧ i ≤ env.nx - 2 ∧ 1 ≤ j ∧ j ≤ env.ny - 2 ∧ k = 0) :
    laplacianAt env c i j k =
      (c (i+1) j k - 2 * c i j k + c (i-1) j k) / env.dx ^ 2 +
      (c i (j+1) k - 2 * c i j k + c i (j-1) k) / env.dy ^ 2 := by
  unfold laplacianAt
  rw [if_pos hdim, if_pos hin]

/-- The Laplacian array is zero off the interior slice. -/
theorem laplacianAt_2d_exterior (env : Microenvironment) (c : Grid3) (i j k : ℤ)
    (hdim : env.dimensionality = 2)
    (hout : ¬(1 ≤ i ∧ i ≤ env.nx - 2 ∧ 1 ≤ j ∧ j ≤ env.ny - 2 ∧ k = 0)) :
    laplacianAt env c i j k = 0 := by
  unfold laplacianAt
  rw [if_pos hdim, if_neg hout]

/-- One scenario step shrinks every voxel of the oxygen field to at most
38 * (1 - decay * dt): the Euler update multiplies the (boundary-clamped,
hence <= 38) concentration by 1 - dt/10, adds dt * D * lap <= dt * D * (four
neighbours - 4 * center)/dx^2 and a nonpositive source term. -/
theorem c9_step_upper (env : Microenvironment) (s : SubstrateField)
    (hdim : env.dimensionality = 2) (hnx : env.nx = 21) (hny : env.ny = 21)
    (hdx : env.dx = 20) (hdy : env.dy = 20)
    (hD : s.diffusion_coefficient = 60000) (hdec : s.decay_rate = 1/10)
    (hbv : s.dirichlet_boundary_value = some 38)
    (hS : ∀ i j z, s.source_sink i j z ≤ 0)
    (hb : ∀ i j z, 0 ≤ s.concentration i j z ∧ s.concentration i j z ≤ 38) :
    ∀ i j z, (env.simulate_diffusion_decay s (1/2400)).concentration i j z ≤
      38 * (23999/24000) := by
  intro i j z
  have hcb := applyDirichlet38_bound env s.concentration hb
  rw [simulate_dd_conc_dirichlet env s 38 hbv (1/2400) i j z, hD, hdec]
  refine max_le ?_ (by norm_num)
  by_cases hin : 1 ≤ i ∧ i ≤ env.nx - 2 ∧ 1 ≤ j ∧ j ≤ env.ny - 2 ∧ z = 0
  · obtain ⟨h1, h2, h3, h4, h5⟩ := hin
    rw [hnx] at h2
    rw [hny] at h4
    have hi0 : ¬(i = 0) := by omega
    have hi1 : ¬(i = env.nx - 1) := by rw [hnx]; omega
    have hj0 : ¬(j = 0) := by omega
    have hj1 : ¬(j = env.ny - 1) := by rw [hny]; omega
    rw [applyDirichlet_interior env s.concentration 38 i j z hdim hi0 hi1 hj0 hj1]
    rw [laplacianAt_2d_interior env s.concentration i j z hdim
      ⟨h1, by rw [hnx]; omega, h3, by rw [hny]; omega, h5⟩]
    rw [hdx, hdy]
    have hA := hb (i+1) j z
    have hB := hb (i-1) j z
    have hC := hb i (j+1) z
    have hE := hb i (j-1) z
    have hM := hb i j z
    have hSv := hS i j z
    linarith [hA.1, hA.2, hB.1, hB.2, hC.1, hC.2, hE.1, hE.2, hM.1, hM.2, hSv]
  · rw [laplacianAt_2d_exterior env s.concentration i j z hdim hin]
    have hcb2 := hcb i j z
    have hSv := hS i j z
    linarith [hcb2.1, hcb2.2, hSv]

/-- A step of the engine maps the singleton substrate dict pointwise. -/
theorem c9_step_single (env : Microenvironment) (s : SubstrateField)
    (hsubs : env.substrates = [("oxygen", s)]) :
    (env.step none).substrates =
      [("oxygen", env.simulate_diffusion_decay s env.dt)] := by
  simp [Microenvironment.step, hsubs]

/-- The scenario invariant is preserved by one engine step. -/
theorem c9_inv_step (env : Microenvironment) (h : C9Inv env) :
    C9Inv (env.step none) := by
  obtain ⟨hdim, hnx, hny, hdx, hdy, hdt, s, hsubs, hD, hdec, hbv, hSle, hSc, hb⟩ := h
  refine ⟨hdim, hnx, hny, hdx, hdy, hdt,
    env.simulate_diffusion_decay s env.dt, c9_step_single env s hsubs,
    hD, hdec, hbv, hSle, hSc, ?_⟩
  intro i j z
  constructor
  · rw [simulate_dd_conc_dirichlet env s 38 hbv env.dt i j z]
    exact le_max_right _ 0
  · rw [hdt]
    exact le_trans
      (c9_step_upper env s hdim hnx hny hdx hdy hD hdec hbv hSle hb i j z)
      (by norm_num)

/-- The oxygen field of the scenario right after the sink is registered. -/
def c9OxyField : SubstrateField :=
  (SubstrateField.mkNew "oxygen" 21 21 1 60000 (1/10) 38 (some 38)).add_sink
    (10, 10, 0) 10

/-- updateTimestep only changes dt: the geometry fields survive. -/
theorem updateTimestep_dim (env : Microenvironment) :
    env.updateTimestep.dimensionality = env.dimensionality := by
  cases h : env.substrates <;> simp [Microenvironment.updateTimestep, h]

theorem updateTimestep_nx (env : Microenvironment) :
    env.updateTimestep.nx = env.nx := by
  cases h : env.substrates <;> simp [Microenvironment.updateTimestep, h]

theorem updateTimestep_ny (env : Microenvironment) :
    env.updateTimestep.ny = env.ny := by
  cases h : env.substrates <;> simp [Microenvironment.updateTimestep, h]

theorem updateTimestep_dx (env : Microenvironment) :
    env.updateTimestep.dx = env.dx := by
  cases h : env.substrates <;> simp [Microenvironment.updateTimestep, h]

theorem updateTimestep_dy (env : Microenvironment) :
    env.updateTimestep.dy = env.dy := by
  cases h : env.substrates <;> simp [Microenvironment.updateTimestep, h]

/-- Concrete scenario geometry: 21 voxels per axis. -/
theorem c9Base_nx : c9Base.nx = 21 := by
  norm_num [c9Base, mkMicroenvironment, pyTruncQ]

theorem c9Base_ny : c9Base.ny = 21 := by
  norm_num [c9Base, mkMicroenvironment, pyTruncQ]

/-- The substrate dict after registering the oxygen field. -/
theorem c9Env_substrates : c9Env.substrates =
    [("oxygen", SubstrateField.mkNew "oxygen" 21 21 1 60000 (1/10) 38 (some 38))] := by
  norm_num [c9Env, createOxygenSubstrate, Microenvironment.add_substrate,
    updateTimestep_substrates, dictInsertSubstrate, c9Base, mkMicroenvironment,
    pyTruncQ]

theorem c9Env_nx : c9Env.nx = 21 := by
  simp only [c9Env, createOxygenSubstrate, Microenvironment.add_substrate,
    updateTimestep_nx]
  exact c9Base_nx

theorem c9Env_ny : c9Env.ny = 21 := by
  simp only [c9Env, createOxygenSubstrate, Microenvironment.add_substrate,
    updateTimestep_ny]
  exact c9Base_ny

/-- The stability rule at the scenario geometry: dt = 1/2400 min. -/
theorem c9Env_dt : c9Env.dt = 1/2400 := by
  norm_num [c9Env, createOxygenSubstrate, Microenvironment.add_substrate,
    Microenvironment.updateTimestep, dictInsertSubstrate,
    Microenvironment.minSpacing, c9Base, mkMicroenvironment, pyTruncQ,
    SubstrateField.mkNew, min_def]

theorem c9Start_dim : c9Start.dimensionality = 2 := by
  simp [c9Start, modifySubstrate, c9Env, createOxygenSubstrate,
    Microenvironment.add_substrate, updateTimestep_dim, c9Base, mkMicroenvironment]

theorem c9Start_nx : c9Start.nx = 21 := by
  simp only [c9Start, modifySubstrate]
  exact c9Env_nx

theorem c9Start_ny : c9Start.ny = 21 := by
  simp only [c9Start, modifySubstrate]
  exact c9Env_ny

theorem c9Start_dx : c9Start.dx = 20 := by
  simp [c9Start, modifySubstrate, c9Env, createOxygenSubstrate,
    Microenvironment.add_substrate, updateTimestep_dx, c9Base, mkMicroenvironment]

theorem c9Start_dy : c9Start.dy = 20 := by
  simp [c9Start, modifySubstrate, c9Env, createOxygenSubstrate,
    Microenvironment.add_substrate, updateTimestep_dy, c9Base, mkMicroenvironment]

theorem c9Start_dt : c9Start.dt = 1/2400 := by
  simp only [c9Start, modifySubstrate]
  exact c9Env_dt

/-- Registering the sink at the center voxel (21 // 2 = 10 on each axis). -/
theorem c9Start_substrates : c9Start.substrates = [("oxygen", c9OxyField)] := by
  norm_num [c9Start, modifySubstrate, c9Env_substrates, c9Env_nx, c9Env_ny,
    c9OxyField]

/-- The invariant holds at the start of the scenario. -/
theorem c9_inv_start : C9Inv c9Start := by
  refine ⟨c9Start_dim, c9Start_nx, c9Start_ny, c9Start_dx, c9Start_dy, c9Start_dt,
    c9OxyField, c9Start_substrates, ?_, ?_, ?_, ?_, ?_, ?_⟩
  · simp [c9OxyField, SubstrateField.add_sink, SubstrateField.mkNew]
  · simp [c9OxyField, SubstrateField.add_sink, SubstrateField.mkNew]
  · simp [c9OxyField, SubstrateField.add_sink, SubstrateField.mkNew]
  · intro i j z
    simp only [c9OxyField, SubstrateField.add_sink, SubstrateField.mkNew, updateGrid]
    norm_num
    unfold updateGrid
    split_ifs <;> norm_num
  · simp [c9OxyField, SubstrateField.add_sink, SubstrateField.mkNew, updateGrid]
  · intro i j z
    refine ⟨?_, ?_⟩ <;>
      simp [c9OxyField, SubstrateField.add_sink, SubstrateField.mkNew]

/-- The invariant holds at every step of the scenario. -/
theorem c9_inv_all : ∀ k, C9Inv (c9After k) := by
  intro k
  induction k with
  | zero => exact c9_inv_start
  | succ n ih => exact c9_inv_step _ ih

/-- Reading the oxygen field of the scenario at step k. -/
theorem c9Conc_eq (k : ℕ) (s : SubstrateField)
    (hs : (c9After k).substrates = [("oxygen", s)]) (i j z : ℤ) :
    c9Conc k i j z = s.concentration i j z := by
  simp [c9Conc, Microenvironment.get_substrate, lookupSubstrate, hs]

/-- After any completed step, every voxel sits strictly below the boundary
value, at most 38 * 23999/24000. -/
theorem c9_after_step_le (k : ℕ) (i j z : ℤ) :
    c9Conc (k+1) i j z ≤ 38 * (23999/24000) := by
  obtain ⟨hdim, hnx, hny, hdx, hdy, hdt, s, hsubs, hD, hdec, hbv, hSle, hSc, hb⟩ :=
    c9_inv_all k
  have hs2 : (c9After (k+1)).substrates =
      [("oxygen", (c9After k).simulate_diffusion_decay s (c9After k).dt)] :=
    c9_step_single (c9After k) s hsubs
  rw [c9Conc_eq (k+1) _ hs2, hdt]
  exact c9_step_upper (c9After k) s hdim hnx hny hdx hdy hD hdec hbv hSle hb i j z

/-- C9: point-sink convergence scenario. On the 2-D 21x21 voxel grid with the
oxygen field at Dirichlet boundary value 38, initial concentration 38
everywhere, and a single sink of magnitude 10 at the center voxel (10,10),
every voxel stays within [0, 38] at every step, and after 50 diffusion steps
the center voxel concentration is strictly below 38. -/
theorem point_sink_convergence :
    (∀ k i j z, 0 ≤ c9Conc k i j z ∧ c9Conc k i j z ≤ 38) ∧
    c9Conc 50 10 10 0 < 38 := by
  constructor
  · intro k i j z
    obtain ⟨_, _, _, _, _, _, s, hsubs, _, _, _, _, _, hb⟩ := c9_inv_all k
    rw [c9Conc_eq k s hsubs]
    exact hb i j z
  · exact lt_of_le_of_lt (c9_after_step_le 49 10 10 0) (by norm_num)
